import Mathlib

/-!
# Verification of the TFMX TypeScript playback engine

A shallow embedding of the tfmx-typescript repository: the MDAT parser
(TFMXParser.ts), the mixer (TFMXAudio.ts) and the tick-driven player engine
(TFMXPlayer.ts).  TypeScript numbers are modelled as exact integers; the
32-bit coercions that JavaScript bitwise operators perform (ToInt32 /
ToUint32) are made explicit through the helpers below.  Arrays become lists,
out-of-range reads follow the JavaScript semantics of the concrete call site.
-/

set_option maxRecDepth 10000
set_option maxHeartbeats 2000000

namespace TFMX

/-! ## JavaScript arithmetic helpers -/

/-- ToUint32: reduce an integer to its unsigned 32-bit representative. -/
def toU32 (v : ℤ) : ℕ := (v.emod 4294967296).toNat

/-- Reinterpret an unsigned 32-bit value as a signed 32-bit integer. -/
def u32asI32 (n : ℕ) : ℤ := if n < 2147483648 then (n : ℤ) else (n : ℤ) - 4294967296

/-- ToInt32: reduce an integer to its signed 32-bit representative. -/
def toInt32 (v : ℤ) : ℤ := u32asI32 (toU32 v)

/-- JavaScript `a >> k` (sign-propagating right shift): ToInt32 then
arithmetic shift, i.e. floor division by a power of two. -/
def sar32 (a : ℤ) (k : ℕ) : ℤ := Int.ediv (toInt32 a) (2 ^ k)

/-- JavaScript `a << k`: ToInt32 the operand, shift, wrap to 32 bits. -/
def shl32 (a : ℤ) (k : ℕ) : ℤ := toInt32 (toInt32 a * 2 ^ k)

/-- JavaScript `a >>> k` (zero-fill right shift), result unsigned. -/
def shru32 (a : ℤ) (k : ℕ) : ℕ := toU32 a / 2 ^ k

/-- JavaScript `a & b` on 32-bit operands (result reinterpreted signed). -/
def jsAnd (a b : ℤ) : ℤ := u32asI32 (Nat.land (toU32 a) (toU32 b))

/-- JavaScript `a | b` on 32-bit operands (result reinterpreted signed). -/
def jsOr (a b : ℤ) : ℤ := u32asI32 (Nat.lor (toU32 a) (toU32 b))

/-- toS8 from types.ts: interpret the low byte as signed 8-bit. -/
def toS8 (v : ℤ) : ℤ := if (toU32 v) % 256 > 127 then ((toU32 v % 256 : ℕ) : ℤ) - 256
  else ((toU32 v % 256 : ℕ) : ℤ)

/-- toS16 from types.ts: interpret the low 16 bits as signed. -/
def toS16 (v : ℤ) : ℤ := if (toU32 v) % 65536 > 32767 then ((toU32 v % 65536 : ℕ) : ℤ) - 65536
  else ((toU32 v % 65536 : ℕ) : ℤ)

/-- Wrap to a signed 8-bit value (an Int8Array store). -/
def wrapS8 (v : ℤ) : ℤ := (v + 128).emod 256 - 128

/-- Byte 0 (most significant) of an unsigned 32-bit value, as in class UNI. -/
def b0 (l : ℕ) : ℕ := l / 16777216 % 256
/-- Byte 1 of an unsigned 32-bit value. -/
def b1 (l : ℕ) : ℕ := l / 65536 % 256
/-- Byte 2 of an unsigned 32-bit value. -/
def b2 (l : ℕ) : ℕ := l / 256 % 256
/-- Byte 3 (least significant) of an unsigned 32-bit value. -/
def b3 (l : ℕ) : ℕ := l % 256
/-- High 16-bit word of an unsigned 32-bit value. -/
def w0 (l : ℕ) : ℕ := l / 65536 % 65536
/-- Low 16-bit word of an unsigned 32-bit value. -/
def w1 (l : ℕ) : ℕ := l % 65536

/-- JavaScript truncating division `trunc (a / b)` for nonzero b, as applied
by ToUint32 to the float quotient (exact for the 32-bit ranges that occur). -/
def jsTruncDiv (a b : ℤ) : ℤ := Int.tdiv a b

/-! ## Parser (TFMXParser.ts)

The byte blobs are lists of naturals below 256.  DataView reads are
big-endian as in the source.
-/

/-- Big-endian 16-bit read at a byte offset (view.getUint16(off, false)). -/
def getU16 (bytes : List ℕ) (off : ℕ) : ℕ :=
  (bytes.getD off 0) * 256 + bytes.getD (off + 1) 0

/-- Big-endian unsigned 32-bit read at a byte offset (view.getUint32). -/
def getU32 (bytes : List ℕ) (off : ℕ) : ℕ :=
  ((bytes.getD off 0) * 256 + bytes.getD (off + 1) 0) * 65536 +
    (bytes.getD (off + 2) 0) * 256 + bytes.getD (off + 3) 0

/-- Big-endian signed 32-bit read at a byte offset (view.getInt32). -/
def getI32 (bytes : List ℕ) (off : ℕ) : ℤ := u32asI32 (getU32 bytes off)

/-- Signed 8-bit view of a sample byte (Int8Array element). -/
def asS8 (v : ℕ) : ℤ := if v % 256 > 127 then ((v % 256 : ℕ) : ℤ) - 256 else ((v % 256 : ℕ) : ℤ)

/-- Modelled from the spec: the recognized magic prefixes
TFMX_MAGIC_STRINGS of constants.ts, a file that is not part of the
sources provided (only its importer TFMXParser.ts is). -/
def magicStrings : List (List ℕ) :=
  [ [0x54, 0x46, 0x4D, 0x58, 0x2D, 0x53, 0x4F, 0x4E, 0x47, 0x20],  -- "TFMX-SONG "
    [0x54, 0x46, 0x4D, 0x58, 0x5F, 0x53, 0x4F, 0x4E, 0x47, 0x20],  -- "TFMX_SONG "
    [0x54, 0x46, 0x4D, 0x58, 0x53, 0x4F, 0x4E, 0x47, 0x20],        -- "TFMXSONG "
    [0x54, 0x46, 0x4D, 0x58, 0x20] ]                               -- "TFMX "

/-- magic.startsWith(m) for one candidate prefix. -/
def magicHasPrefix (magic m : List ℕ) : Bool := m == magic.take m.length

/-- The parseHeader validity test: the ten magic bytes start with one of the
recognized prefixes. -/
def magicValid (mdat : List ℕ) : Bool :=
  magicStrings.any (fun m => magicHasPrefix (mdat.take 10) m)

/-- Parsed header (struct Hdr). -/
structure Hdr where
  magic : List ℕ
  start : List ℕ
  stop : List ℕ
  tempo : List ℕ
  trackstart : ℤ
  pattstart : ℤ
  macrostart : ℤ

/-- Parsed module (TFMXData). -/
structure Module where
  hdr : Hdr
  editbuf : List ℤ
  smplbuf : List ℤ
  patterns : List ℤ
  macros : List ℤ
  numPatterns : ℕ
  numMacros : ℕ
  numTracksteps : ℤ

/-- Write a list element at an integer index; out-of-range stores on a
typed array are ignored in JavaScript. -/
def lsetZ (xs : List ℤ) (i : ℤ) (v : ℤ) : List ℤ :=
  if 0 ≤ i then xs.set i.toNat v else xs

/-- Read a list element at an integer index, `none` when out of range
(an undefined typed-array read). -/
def lgetZ? (xs : List ℤ) (i : ℤ) : Option ℤ :=
  if 0 ≤ i ∧ i < (xs.length : ℤ) then some (xs.getD i.toNat 0) else none

/-- One step of the pattern/macro pointer-table walk of parseTFMX.  `z` is
the running editbuf index, `acc` collects the recorded word indices (in
reverse).  An editbuf read outside the array yields undefined in TypeScript,
so `y` is NaN there: `NaN & 3` is 0 and `NaN >> 2` is 0, hence the walk
records index 0 and keeps going, leaving editbuf unchanged. -/
def walkTable (mlen : ℕ) : ℕ → ℤ → List ℤ → List ℤ → List ℤ × List ℤ
  | 0, _, eb, acc => (eb, acc.reverse)
  | n + 1, z, eb, acc =>
    match lgetZ? eb z with
    | some raw =>
      let y : ℤ := raw - 0x200
      if (toInt32 y).emod 4 ≠ 0 ∨ Int.ediv (toInt32 y) 4 > (mlen : ℤ) then
        (eb, acc.reverse)
      else
        walkTable mlen n (z + 1) (lsetZ eb z (Int.ediv (toInt32 y) 4))
          (Int.ediv (toInt32 y) 4 :: acc)
    | none =>
      -- undefined read: NaN path, records 0 and continues
      walkTable mlen n (z + 1) eb ((0 : ℤ) :: acc)

/-- parseTFMX from TFMXParser.ts.  HEADER_SIZE is 512 (the spec fixes the
post-header data at byte 0x200; constants.ts itself is not in the sources). -/
def parseTFMX (mdat smpl : List ℕ) : Except String Module :=
  if ¬ magicValid mdat then
    .error "Not a TFMX file"
  else
    let numWords := (mdat.length - 512) / 4
    let editbuf0 := ((List.range numWords).map (fun i => getI32 mdat (512 + i * 4))) ++ [(-1 : ℤ)]
    let mlen := numWords
    let rawTrackstart := getU32 mdat 0x1D0
    let rawPattstart := getU32 mdat 0x1D4
    let rawMacrostart := getU32 mdat 0x1D8
    let trackstart : ℤ :=
      if rawTrackstart = 0 then 0x180 else sar32 ((rawTrackstart : ℤ) - 0x200) 2
    let pattstart : ℤ :=
      if rawPattstart = 0 then 0x80 else sar32 ((rawPattstart : ℤ) - 0x200) 2
    let macrostart : ℤ :=
      if rawMacrostart = 0 then 0x100 else sar32 ((rawMacrostart : ℤ) - 0x200) 2
    let wm := walkTable mlen 128 macrostart editbuf0 []
    let editbuf1 := wm.1
    let macros := wm.2
    let wp := walkTable mlen 128 pattstart editbuf1 []
    let editbuf2 := wp.1
    let patterns := wp.2
    let numTracksteps : ℤ :=
      match patterns.head? with
      | some p0 => sar32 (p0 - trackstart) 2
      | none => 0
    .ok
      { hdr :=
          { magic := mdat.take 10
            start := (List.range 32).map (fun i => getU16 mdat (0x100 + i * 2))
            stop := (List.range 32).map (fun i => getU16 mdat (0x140 + i * 2))
            tempo := (List.range 32).map (fun i => getU16 mdat (0x180 + i * 2))
            trackstart := trackstart
            pattstart := pattstart
            macrostart := macrostart }
        editbuf := editbuf2
        smplbuf := smpl.map asS8
        patterns := patterns
        macros := macros
        numPatterns := patterns.length
        numMacros := macros.length
        numTracksteps := numTracksteps }

/-! ## Player state (types.ts / TFMXPlayer.ts)

All numeric fields are exact integers, as TypeScript numbers are; the
byte/word-size annotations of types.ts are comments there, not masks.  The
`loop` callback of an Hdb is one of two functions (loopOff / loopOn), so it
is modelled by the flag `loopOn`.  The display-only fields
channelOwnerTrack and activeTrackIdx of TFMXPlayer (read solely by
getDisplayState) are omitted.
-/

/-- Hardware DMA channel state (struct Hdb). -/
structure Hdb where
  pos : ℤ
  delta : ℤ
  slen : ℤ
  SampleLength : ℤ
  sbeg : ℤ
  SampleStart : ℤ
  vol : ℤ
  mode : ℤ
  loopOn : Bool
  loopcnt : ℤ
  cIdx : ℤ
  useImsBuffer : Bool

/-- Channel (controller) state, struct Cdb with the IMS/riff extensions of
TFMXPlayer.createCdb. -/
structure Cdb where
  MacroRun : ℤ
  EfxRun : ℤ
  NewStyleMacro : ℤ
  PrevNote : ℤ
  CurrNote : ℤ
  Velocity : ℤ
  Finetune : ℤ
  KeyUp : ℤ
  ReallyWait : ℤ
  MacroPtr : ℤ
  MacroStep : ℤ
  MacroWait : ℤ
  MacroNum : ℤ
  Loop : ℤ
  CurAddr : ℤ
  SaveAddr : ℤ
  CurrLength : ℤ
  SaveLen : ℤ
  WaitDMACount : ℤ
  DMABit : ℤ
  EnvReset : ℤ
  EnvTime : ℤ
  EnvRate : ℤ
  EnvEndvol : ℤ
  CurVol : ℤ
  VibOffset : ℤ
  VibWidth : ℤ
  VibFlag : ℤ
  VibReset : ℤ
  VibTime : ℤ
  PortaReset : ℤ
  PortaTime : ℤ
  CurPeriod : ℤ
  DestPeriod : ℤ
  PortaPer : ℤ
  PortaRate : ℤ
  AddBeginTime : ℤ
  AddBeginReset : ℤ
  ReturnPtr : ℤ
  ReturnStep : ℤ
  AddBegin : ℤ
  SfxFlag : ℤ
  SfxPriority : ℤ
  SfxNum : ℤ
  SfxLockTime : ℤ
  SfxCode : ℤ
  ImsStart : ℤ
  ImsLength : ℤ
  ImsDeltaLen : ℤ
  ImsDeltaOffs : ℤ
  ImsMod1 : ℤ
  ImsMod1Len : ℤ
  ImsMod1Len2 : ℤ
  ImsMod1Add : ℤ
  ImsMod2 : ℤ
  ImsMod2Len : ℤ
  ImsMod2Len2 : ℤ
  ImsMod2Add : ℤ
  ImsDelta : ℤ
  ImsDeltaOld : ℤ
  ImsFSpeed : ℤ
  ImsFLen1 : ℤ
  ImsFLen2 : ℤ
  ImsDolby : ℤ
  AddBeginCount1 : ℤ
  AddBeginCount2 : ℤ
  RiffStats : ℤ
  RiffMacro : ℤ
  RiffSpeed : ℤ
  RiffCount : ℤ
  RiffTrigg : ℤ
  RiffAND : ℤ
  SkipFlag : ℤ
  hwIdx : ℤ

/-- Master state (struct Mdb). -/
structure Mdb where
  PlayerEnable : ℤ
  EndFlag : ℤ
  CurrSong : ℤ
  SpeedCnt : ℤ
  CIASave : ℤ
  SongCont : ℤ
  SongNum : ℤ
  PlayPattFlag : ℤ
  MasterVol : ℤ
  FadeDest : ℤ
  FadeTime : ℤ
  FadeReset : ℤ
  FadeSlope : ℤ
  TrackLoop : ℤ
  DMAon : ℤ
  DMAoff : ℤ
  DMAstate : ℤ
  DMAAllow : ℤ

/-- Per-track pattern cursor (struct Pdb). -/
structure Pdb where
  PAddr : ℤ
  PNum : ℤ
  PXpose : ℤ
  PLoop : ℤ
  PStep : ℤ
  PWait : ℤ
  PRoAddr : ℤ
  PRoStep : ℤ

/-- Pattern block (struct Pdblk): the eight cursors plus positions. -/
structure Pdblk where
  FirstPos : ℤ
  LastPos : ℤ
  CurrPos : ℤ
  Prescale : ℤ
  p : List Pdb

/-- createHdb defaults. -/
def Hdb.init (idx : ℕ) : Hdb :=
  { pos := 0, delta := 0, slen := 2, SampleLength := 0, sbeg := 0,
    SampleStart := 0, vol := 0, mode := 0, loopOn := false, loopcnt := 0,
    cIdx := idx, useImsBuffer := false }

/-- createCdb defaults, with the ImsDeltaOffs assignment of initStructs. -/
def Cdb.init (idx : ℕ) : Cdb :=
  { MacroRun := 0, EfxRun := 0, NewStyleMacro := 0xFF, PrevNote := 0,
    CurrNote := 0, Velocity := 0, Finetune := 0, KeyUp := 0, ReallyWait := 0,
    MacroPtr := 0, MacroStep := 0, MacroWait := 0, MacroNum := 0, Loop := -1,
    CurAddr := 0, SaveAddr := 0, CurrLength := 0, SaveLen := 2,
    WaitDMACount := 0, DMABit := 0, EnvReset := 0, EnvTime := 0, EnvRate := 0,
    EnvEndvol := 0, CurVol := 0, VibOffset := 0, VibWidth := 0, VibFlag := 0,
    VibReset := 0, VibTime := 0, PortaReset := 0, PortaTime := 0,
    CurPeriod := 0, DestPeriod := 0, PortaPer := 0, PortaRate := 0,
    AddBeginTime := 0, AddBeginReset := 0, ReturnPtr := 0, ReturnStep := 0,
    AddBegin := 0, SfxFlag := 0, SfxPriority := 0, SfxNum := 0,
    SfxLockTime := -1, SfxCode := 0, ImsStart := 0, ImsLength := 0,
    ImsDeltaLen := 0, ImsDeltaOffs := idx * 0x200, ImsMod1 := 0,
    ImsMod1Len := 0, ImsMod1Len2 := 0, ImsMod1Add := 0, ImsMod2 := 0,
    ImsMod2Len := 0, ImsMod2Len2 := 0, ImsMod2Add := 0, ImsDelta := 0,
    ImsDeltaOld := 0, ImsFSpeed := 0, ImsFLen1 := 0, ImsFLen2 := 0,
    ImsDolby := 0, AddBeginCount1 := 0, AddBeginCount2 := 0, RiffStats := 0,
    RiffMacro := 0, RiffSpeed := 0, RiffCount := 0, RiffTrigg := 0,
    RiffAND := 0, SkipFlag := 0, hwIdx := idx }

/-- createMdb defaults. -/
def Mdb.init : Mdb :=
  { PlayerEnable := 0, EndFlag := 0, CurrSong := 0, SpeedCnt := 0,
    CIASave := 0, SongCont := 0, SongNum := 0, PlayPattFlag := 0,
    MasterVol := 0x40, FadeDest := 0, FadeTime := 0, FadeReset := 0,
    FadeSlope := 0, TrackLoop := -1, DMAon := 0, DMAoff := 0, DMAstate := 0,
    DMAAllow := 0 }

/-- createPdb defaults. -/
def Pdb.init : Pdb :=
  { PAddr := 0, PNum := 0xFF, PXpose := 0, PLoop := 0xFFFF, PStep := 0,
    PWait := 0, PRoAddr := 0, PRoStep := 0 }

/-- createPdblk defaults. -/
def Pdblk.init : Pdblk :=
  { FirstPos := 0, LastPos := 0, CurrPos := 0, Prescale := 0,
    p := List.replicate 8 Pdb.init }

/-- Immutable inputs of a playback run: the loaded module data, the
configuration switches and the output rate.  `notevals` stands for the
NOTEVALS period table of constants.ts; that file is not among the sources,
and the spec only describes it as a 64-entry note-to-period table, so the
table contents stay an arbitrary parameter here.  `fuel` bounds the
while(true) loops of the interpreter (all concrete runs below stay far
below it). -/
structure Const where
  editbuf : List ℤ
  patterns : List ℤ
  macros : List ℤ
  smpl : List ℤ
  notevals : List ℤ
  trackstart : ℤ
  outRate : ℤ
  gemx : ℤ
  dangerFreakHack : ℤ
  fuel : ℕ

/-- The whole mutable engine state. -/
structure PState where
  mdb : Mdb
  pdb : Pdblk
  cdb : List Cdb
  hdb : List Hdb
  cue : List ℤ
  ims : List ℤ
  multimode : ℤ
  eClocks : ℤ
  jiffies : ℤ
  loops : ℤ

/-- Read a Cdb by integer index (this.cdb[i]). -/
def getC (s : PState) (i : ℤ) : Cdb := s.cdb.getD (toU32 i) (Cdb.init 0)

/-- Write a Cdb by integer index. -/
def setC (s : PState) (i : ℤ) (c : Cdb) : PState :=
  { s with cdb := s.cdb.set (toU32 i) c }

/-- Read an Hdb by integer index (this.hdb[i]). -/
def getH (s : PState) (i : ℤ) : Hdb := s.hdb.getD (toU32 i) (Hdb.init 0)

/-- Write an Hdb by integer index. -/
def setH (s : PState) (i : ℤ) (h : Hdb) : PState :=
  { s with hdb := s.hdb.set (toU32 i) h }

/-- Read a pattern cursor (this.pdb.p[x]). -/
def getP (s : PState) (x : ℕ) : Pdb := s.pdb.p.getD x Pdb.init

/-- Write a pattern cursor. -/
def setP (s : PState) (x : ℕ) (q : Pdb) : PState :=
  { s with pdb := { s.pdb with p := s.pdb.p.set x q } }

/-- readEditbuf: zero outside the array. -/
def readEditbuf (k : Const) (i : ℤ) : ℤ :=
  if 0 ≤ i ∧ i < (k.editbuf.length : ℤ) then k.editbuf.getD i.toNat 0 else 0

/-- this.data.macros[i] || 0. -/
def macroAt (k : Const) (i : ℕ) : ℤ := k.macros.getD i 0

/-- this.data.patterns[i] || 0. -/
def patternAt (k : Const) (i : ℕ) : ℤ := k.patterns.getD i 0

/-- NOTEVALS[i] || 0. -/
def notevalAt (k : Const) (i : ℕ) : ℤ := k.notevals.getD i 0

/-! ## Note dispatch, fades and helpers (TFMXPlayer.ts) -/

/-- Write one Cue slot. -/
def setCue (s : PState) (i : ℕ) (v : ℤ) : PState := { s with cue := s.cue.set i v }

/-- NotePort from TFMXPlayer.ts.  The argument is the unsigned 32-bit note
command word. -/
def notePort (k : Const) (s : PState) (i : ℕ) : PState :=
  let channelIdx : ℕ := b2 i % (if s.multimode ≠ 0 then 8 else 4)
  let c := getC s channelIdx
  if b0 i = 0xFC then
    setC s channelIdx { c with SfxFlag := b1 i, SfxLockTime := b3 i }
  else if c.SfxFlag ≠ 0 then s
  else if b0 i < 0xC0 then
    setC s channelIdx
      { c with
        Finetune := if k.dangerFreakHack ≠ 0 then 0 else (b3 i : ℤ)
        Velocity := (b2 i / 16 % 16 : ℕ)
        PrevNote := c.CurrNote
        CurrNote := (b0 i : ℤ)
        ReallyWait := 1
        NewStyleMacro := 0xFF
        MacroNum := (b1 i : ℤ)
        MacroPtr := macroAt k (b1 i)
        MacroStep := 0
        EfxRun := 0
        MacroWait := 0
        KeyUp := 1
        Loop := -1
        MacroRun := -1 }
  else if b0 i < 0xF0 then
    setC s channelIdx
      { c with
        PortaReset := (b1 i : ℤ)
        PortaTime := 1
        PortaPer := if c.PortaRate = 0 then c.DestPeriod else c.PortaPer
        PortaRate := (b3 i : ℤ)
        CurrNote := (b0 i % 64 : ℕ)
        DestPeriod := notevalAt k (b0 i % 64) }
  else if b0 i = 0xF7 then
    setC s channelIdx
      { c with EnvRate := (b1 i : ℤ), EnvReset := (b2 i / 16 + 1 : ℕ),
               EnvTime := (b2 i / 16 + 1 : ℕ), EnvEndvol := (b3 i : ℤ) }
  else if b0 i = 0xF6 then
    setC s channelIdx
      { c with VibReset := (b1 i / 2 * 2 : ℕ), VibTime := (b1 i / 2 : ℕ),
               VibWidth := toS8 (b3 i), VibFlag := 1, VibOffset := 0 }
  else if b0 i = 0xF5 then
    setC s channelIdx { c with KeyUp := 0 }
  else s

/-- ChannelOff from TFMXPlayer.ts. -/
def channelOff (s : PState) (i : ℤ) : PState :=
  let idx : ℕ := toU32 i % 16
  let c := getC s idx
  if c.SfxFlag ≠ 0 then s
  else
    let hw := getH s c.hwIdx
    let hw := { hw with mode := 0, vol := 0, loopOn := false, cIdx := idx }
    let s := setH s c.hwIdx hw
    setC s idx
      { c with AddBeginTime := 0, AddBeginReset := 0, MacroRun := 0,
               NewStyleMacro := 0xFF, SaveAddr := 0, CurVol := 0,
               SaveLen := 1, CurrLength := 1 }

/-- DoFade from TFMXPlayer.ts, acting on the master block. -/
def doFade (sp dv : ℤ) (m : Mdb) : Mdb :=
  let m := { m with FadeDest := dv, FadeTime := sp, FadeReset := sp }
  if sp = 0 ∨ m.MasterVol = sp then
    { m with MasterVol := dv, FadeSlope := 0 }
  else
    { m with FadeSlope := if m.MasterVol > m.FadeDest then -1 else 1 }

/-- DoFade lifted to the whole state. -/
def doFadeSt (s : PState) (sp dv : ℤ) : PState := { s with mdb := doFade sp dv s.mdb }

/-! ## Macro interpreter (RunMacro) -/

/-- Whether the dispatched opcode falls through to the next instruction
(cont) or ends this macro pass (ret). -/
inductive MFlow where
  | cont : MFlow
  | ret : MFlow

/-- The MAYBEWAIT tail shared by Wait, WaitOnDMA and the note opcodes. -/
def maybeWait (s : PState) (cc : ℤ) : PState × MFlow :=
  let c := getC s cc
  if c.NewStyleMacro = 0 then (setC s cc { c with NewStyleMacro := 0xFF }, .cont)
  else (s, .ret)

/-- The DMAoff body (case 0x13), also reached by fall-through from 0x00. -/
def dmaOffBody (s : PState) (cc : ℤ) (xb1 : ℕ) : PState × MFlow :=
  let c := getC s cc
  let hw := getH s c.hwIdx
  let hw := { hw with loopOn := false }
  if xb1 = 0 then
    let hw := { hw with mode := 0 }
    let hw := if c.NewStyleMacro ≠ 0 then { hw with slen := 0 } else hw
    (setH s c.hwIdx hw, .cont)
  else
    (setC (setH s c.hwIdx { hw with mode := jsOr hw.mode 4 }) cc
      { c with NewStyleMacro := 0 }, .ret)

/-- The Cont body (case 0x06), also reached by fall-through from GoSub. -/
def macroContBody (k : Const) (s : PState) (cc : ℤ) (xb1 xw1 : ℕ) : PState × MFlow :=
  let c := getC s cc
  (setC s cc { c with MacroNum := (xb1 : ℤ), MacroPtr := macroAt k xb1,
                      MacroStep := (xw1 : ℤ), Loop := 0xFFFF }, .cont)

/-- The Loop body (case 0x05), also reached from LoopKeyUp. -/
def macroLoopBody (s : PState) (cc : ℤ) (xb1 xw1 : ℕ) : PState × MFlow :=
  let c := getC s cc
  let oldLoop := c.Loop
  let c := { c with Loop := c.Loop - 1 }
  if oldLoop = 0 then (setC s cc c, .cont)
  else
    let c := if c.Loop < 0 then { c with Loop := (xb1 : ℤ) - 1 } else c
    (setC s cc { c with MacroStep := (xw1 : ℤ) }, .cont)

/-- The note-period computation of AddNote / SetNote / SetPrevNote:
NOTEVALS[(base + b1) & 0x3F] * (0x100 + Finetune + toS8 b3) >> 8, written
into DestPeriod (and CurPeriod when no portamento runs). -/
def macroNoteBody (k : Const) (s : PState) (cc : ℤ) (base : ℤ) (xb1 xb3 : ℕ) :
    PState × MFlow :=
  let c := getC s cc
  let noteA := (notevalAt k (toU32 (base + xb1) % 64)) * (0x100 + c.Finetune + toS8 xb3)
  let noteA := sar32 noteA 8
  let c := { c with DestPeriod := noteA,
                    CurPeriod := if c.PortaRate = 0 then noteA else c.CurPeriod }
  maybeWait (setC s cc c) cc

/-- One dispatched macro instruction (the big switch of RunMacro).  `a` is
byte 0 of the instruction, `lz` the instruction word with byte 0 cleared
(x.b0 = 0 in the source). -/
def macroCase (k : Const) (s : PState) (cc : ℤ) (a : ℕ) (lz : ℕ) : PState × MFlow :=
  let xb1 := b1 lz
  let xb2 := b2 lz
  let xb3 := b3 lz
  let xw0 := w0 lz
  let xw1 := w1 lz
  let c := getC s cc
  let hw := getH s c.hwIdx
  match a with
  | 0x00 =>
    -- DMAoff+Reset, falls through to DMAoff
    let c := { c with EnvReset := 0, VibReset := 0, PortaRate := 0,
                      AddBeginTime := 0, RiffStats := 0, ImsDeltaLen := 0 }
    let c :=
      if k.gemx ≠ 0 then
        if xb2 ≠ 0 then { c with CurVol := (xb3 : ℤ) }
        else { c with CurVol := (xb3 : ℤ) + c.Velocity * 3 }
      else c
    dmaOffBody (setC s cc c) cc xb1
  | 0x13 => dmaOffBody s cc xb1
  | 0x01 =>
    -- DMAon
    let c := { c with EfxRun := (xb1 : ℤ) }
    let hw := { hw with mode := 1 }
    if c.NewStyleMacro = 0 ∨ k.dangerFreakHack ≠ 0 then
      let start := c.SaveAddr
      let len := if c.SaveLen ≠ 0 then shl32 c.SaveLen 1 else 131072
      (setC (setH s c.hwIdx
        { hw with SampleStart := start, SampleLength := len, sbeg := start,
                  slen := len, pos := 0, mode := jsOr 1 2 }) cc c, .cont)
    else
      (setC (setH s c.hwIdx hw) cc c, .cont)
  | 0x02 =>
    (setC s cc { c with AddBeginCount1 := 0, AddBeginTime := 0,
                        SaveAddr := (lz : ℤ), CurAddr := (lz : ℤ) }, .cont)
  | 0x11 =>
    -- AddBegin
    let delta := toS16 xw1
    let addr := c.CurAddr + delta
    let c := { c with AddBeginCount1 := (xb1 : ℤ), AddBeginCount2 := (xb1 : ℤ),
                      AddBeginTime := (xb1 : ℤ), AddBeginReset := (xb1 : ℤ),
                      AddBegin := delta, SaveAddr := addr, CurAddr := addr }
    let c := if c.ImsDeltaLen ≠ 0 then { c with ImsStart := addr } else c
    (setC s cc c, .cont)
  | 0x03 =>
    (setC s cc { c with SaveLen := (xw1 : ℤ), CurrLength := (xw1 : ℤ) }, .cont)
  | 0x12 =>
    let nl := jsAnd (c.CurrLength + xw1) 0xFFFF
    (setC s cc { c with CurrLength := nl, SaveLen := nl }, .cont)
  | 0x04 =>
    -- Wait
    if xb1 % 2 = 1 then
      let oldRW := c.ReallyWait
      let s := setC s cc { c with ReallyWait := c.ReallyWait + 1 }
      if oldRW ≠ 0 then (s, .ret)
      else
        let c := getC s cc
        maybeWait (setC s cc { c with MacroWait := (xw1 : ℤ) }) cc
    else
      maybeWait (setC s cc { c with MacroWait := (xw1 : ℤ) }) cc
  | 0x1A =>
    -- Wait on DMA
    let s := setH s c.hwIdx { hw with loopOn := true, cIdx := cc }
    let c := getC s cc
    maybeWait (setC s cc { c with WaitDMACount := (xw1 : ℤ), MacroRun := 0 }) cc
  | 0x1C => (if c.CurrNote > (xb1 : ℤ) then setC s cc { c with MacroStep := (xw1 : ℤ) } else s, .cont)
  | 0x1D => (if c.CurVol > (xb1 : ℤ) then setC s cc { c with MacroStep := (xw1 : ℤ) } else s, .cont)
  | 0x1B => (s, .cont)
  | 0x1E => (s, .cont)
  | 0x10 => if c.KeyUp = 0 then (s, .cont) else macroLoopBody s cc xb1 xw1
  | 0x05 => macroLoopBody s cc xb1 xw1
  | 0x07 => (setC s cc { c with MacroRun := 0 }, .ret)
  | 0x0D =>
    if xb2 ≠ 0xFE then
      let tempVol := c.Velocity * 3 + toS8 xb3
      let nv : ℤ := if tempVol > 0x40 then 0x40 else if tempVol < 0 then 0 else tempVol
      (setC s cc { c with CurVol := nv }, .cont)
    else (s, .cont)
  | 0x0E =>
    if xb2 ≠ 0xFE then (setC s cc { c with CurVol := (xb3 : ℤ) }, .cont)
    else (s, .cont)
  | 0x21 =>
    -- Play macro: replay the current note on another channel
    let nb2 := toU32 (jsOr (xb2 : ℤ) (shl32 c.Velocity 4)) % 256
    let nl := (toU32 c.CurrNote % 256) * 16777216 + xb1 * 65536 + nb2 * 256 + xb3
    (notePort k s nl, .cont)
  | 0x1F => macroNoteBody k s cc c.PrevNote xb1 xb3
  | 0x08 => macroNoteBody k s cc c.CurrNote xb1 xb3
  | 0x09 => macroNoteBody k s cc 0 xb1 xb3
  | 0x17 =>
    (setC s cc { c with DestPeriod := (xw1 : ℤ),
                        CurPeriod := if c.PortaRate = 0 then (xw1 : ℤ) else c.CurPeriod }, .cont)
  | 0x0B =>
    (setC s cc { c with PortaReset := (xb1 : ℤ), PortaTime := 1,
                        PortaPer := if c.PortaRate = 0 then c.DestPeriod else c.PortaPer,
                        PortaRate := toS16 xw1 }, .cont)
  | 0x0C =>
    let c := { c with VibReset := (xb1 : ℤ), VibTime := (xb1 / 2 : ℕ),
                      VibWidth := toS8 xb3, VibFlag := 1 }
    let c := if c.PortaRate = 0 then { c with CurPeriod := c.DestPeriod, VibOffset := 0 } else c
    (setC s cc c, .cont)
  | 0x0F =>
    (setC s cc { c with EnvReset := (xb2 : ℤ), EnvTime := (xb2 : ℤ),
                        EnvEndvol := toS8 xb3, EnvRate := (xb1 : ℤ) }, .cont)
  | 0x0A =>
    (setC s cc { c with RiffStats := 0, ImsDeltaLen := 0, AddBeginCount1 := 0,
                        EnvReset := 0, VibReset := 0, PortaRate := 0,
                        AddBeginTime := 0 }, .cont)
  | 0x14 =>
    -- Wait key up
    let c := if c.KeyUp = 0 then { c with Loop := 0 } else c
    if c.Loop = 0 then (setC s cc { c with Loop := -1 }, .cont)
    else
      let c := if c.Loop = -1 then { c with Loop := (xb3 : ℤ) - 1 }
               else { c with Loop := c.Loop - 1 }
      (setC s cc { c with MacroStep := c.MacroStep - 1 }, .ret)
  | 0x15 =>
    let s := setC s cc { c with ReturnPtr := c.MacroPtr, ReturnStep := c.MacroStep }
    macroContBody k s cc xb1 xw1
  | 0x06 => macroContBody k s cc xb1 xw1
  | 0x16 =>
    (setC s cc { c with MacroPtr := c.ReturnPtr, MacroStep := c.ReturnStep }, .cont)
  | 0x18 =>
    let offset : ℕ := xw1 - xw1 % 2
    let c := { c with SaveAddr := c.SaveAddr + offset, SaveLen := c.SaveLen - offset / 2 }
    (setC s cc { c with CurrLength := c.SaveLen, CurAddr := c.SaveAddr }, .cont)
  | 0x19 =>
    (setC s cc { c with AddBeginTime := 0, SaveAddr := 0, CurAddr := 0,
                        SaveLen := 1, CurrLength := 1 }, .cont)
  | 0x20 => (setCue s (xb1 % 4) (xw1 : ℤ), .cont)
  | 0x22 =>
    let c := { c with AddBeginCount1 := 0, ImsStart := (lz : ℤ),
                      CurAddr := (lz : ℤ), SaveAddr := (lz : ℤ) }
    let hw := { hw with SampleStart := c.ImsDeltaOffs, sbeg := c.ImsDeltaOffs,
                        pos := 0, useImsBuffer := true }
    (setC (setH s c.hwIdx hw) cc c, .cont)
  | 0x23 =>
    let len : ℕ := if xw0 = 0 then 0x100 else xw0
    let hw := { hw with SampleLength := (len / 2 * 2 : ℕ), slen := (len / 2 * 2 : ℕ) }
    let c := { c with ImsDeltaLen := ((len - 1) % 256 : ℕ), ImsLength := (xw1 : ℤ),
                      SaveLen := (xw1 : ℤ), CurrLength := (xw1 : ℤ) }
    (setC (setH s c.hwIdx hw) cc c, .cont)
  | 0x24 => (setC s cc { c with ImsMod1 := shl32 (lz : ℤ) 8 }, .cont)
  | 0x25 =>
    (setC s cc { c with ImsMod1Len := (xw0 : ℤ), ImsMod1Len2 := (xw0 : ℤ),
                        ImsMod1Add := toS16 xw1 }, .cont)
  | 0x26 => (setC s cc { c with ImsMod2 := toInt32 (lz : ℤ) }, .cont)
  | 0x27 =>
    (setC s cc { c with ImsMod2Len := (xw0 : ℤ), ImsMod2Len2 := (xw0 : ℤ),
                        ImsMod2Add := toS16 xw1 }, .cont)
  | 0x28 =>
    (setC s cc { c with ImsDelta := toS8 xb3, ImsFSpeed := shl32 (toS8 xb2) 4,
                        ImsFLen1 := (xw0 : ℤ), ImsFLen2 := (xw0 : ℤ) }, .cont)
  | 0x29 =>
    let c := { c with ImsDeltaLen := 0 }
    let s := setH s c.hwIdx { hw with useImsBuffer := false }
    let c :=
      if xb1 ≠ 0 then
        { c with ImsMod1 := 0, ImsMod1Len := 0, ImsMod1Len2 := 0, ImsMod1Add := 0,
                 ImsMod2 := 0, ImsMod2Len := 0, ImsMod2Len2 := 0, ImsMod2Add := 0,
                 ImsDelta := 0, ImsFSpeed := 0, ImsFLen1 := 0, ImsFLen2 := 0,
                 ImsDolby := (xb3 : ℤ) }
      else c
    (setC s cc c, .cont)
  | 0x2A => (s, .cont)
  | 0x2B => (s, .cont)
  | 0x2C => (s, .cont)
  | 0x2D => (setC s cc { c with MacroStep := c.MacroStep + 1 }, .cont)
  | 0x2E => (s, .cont)
  | 0x2F => (setC s cc { c with MacroStep := c.MacroStep + 1 }, .cont)
  | 0x30 =>
    if c.SkipFlag = 0 then (setC s cc { c with SkipFlag := 0xFF }, .cont)
    else (setC s cc { c with MacroStep := (xw1 : ℤ) }, .cont)
  | 0x31 => (notePort k s (0xF5000000 + xb2 * 256), .cont)
  | 0x32 => (s, .cont)
  | 0x33 => (s, .cont)
  | _ => (s, .cont)

/-- The fetch-decode-execute loop of RunMacro (fuel-bounded: the source
loops until an instruction returns). -/
def runMacroGo (k : Const) (cc : ℤ) : ℕ → PState → PState
  | 0, s => s
  | fuel + 1, s =>
    let c := getC s cc
    let raw := readEditbuf k (c.MacroPtr + c.MacroStep)
    let s := setC s cc { c with MacroStep := c.MacroStep + 1 }
    let u := toU32 raw
    match macroCase k s cc (b0 u) (u % 16777216) with
    | (s, .ret) => s
    | (s, .cont) => runMacroGo k cc fuel s

/-- RunMacro from TFMXPlayer.ts. -/
def runMacro (k : Const) (cc : ℤ) (s : PState) : PState :=
  let c := getC s cc
  runMacroGo k cc k.fuel (setC s cc { c with MacroWait := 0 })

/-! ## Effects processor and IMS synthesis -/

/-- smplbuf read with the `|| 0` fallback of doImsSynthesis. -/
def readSmpl (k : Const) (i : ℤ) : ℤ :=
  if 0 ≤ i ∧ i < (k.smpl.length : ℤ) then k.smpl.getD i.toNat 0 else 0

/-- 68000 swap: exchange the 16-bit halves of a 32-bit value. -/
def swap32 (v : ℤ) : ℤ := u32asI32 ((toU32 v % 65536) * 65536 + toU32 v / 65536)

/-- The synthesis loop of doImsSynthesis: one pass over the IMS buffer.
State: (i, mod1, phaseAccum, deltaOld, buffer). -/
def imsLoopGo (k : Const) (srcStart mod2 sampleLen delta dolby bufStart : ℤ) :
    ℕ → ℕ → ℤ → ℤ → ℤ → List ℤ → ℤ × ℤ × List ℤ
  | 0, _, mod1, _, deltaOld, buf => (mod1, deltaOld, buf)
  | n + 1, i, mod1, pa, deltaOld, buf =>
    let mod1 := toInt32 (mod1 + mod2)
    let swapped := toInt32 (swap32 pa + mod1)
    let pa := swap32 swapped
    let sampleOffset := jsAnd (jsAnd pa 0xFFFF) sampleLen
    let amplitude := readSmpl k (srcStart + sampleOffset)
    let res :=
      if delta ≠ 0 ∧ amplitude ≠ deltaOld then
        if amplitude > deltaOld then
          let newDelta := deltaOld + delta
          if newDelta > 127 ∨ newDelta < -128 then (amplitude, amplitude)
          else if newDelta > amplitude then (amplitude, amplitude)
          else (newDelta, newDelta)
        else
          let newDelta := deltaOld - delta
          if newDelta > 127 ∨ newDelta < -128 then (amplitude, amplitude)
          else if newDelta < amplitude then (amplitude, amplitude)
          else (newDelta, newDelta)
      else (amplitude, deltaOld)
    let amplitude := res.1
    let deltaOld := res.2
    let buf := lsetZ buf (bufStart + i) (wrapS8 amplitude)
    let buf := if dolby ≠ 0 then lsetZ buf (bufStart + 0x100 + i) (wrapS8 (-amplitude)) else buf
    imsLoopGo k srcStart mod2 sampleLen delta dolby bufStart n (i + 1) mod1 pa deltaOld buf

/-- DoImsSynthesis from TFMXPlayer.ts. -/
def doImsSynthesis (k : Const) (cc : ℤ) (s : PState) : PState :=
  let c := getC s cc
  let r := imsLoopGo k c.ImsStart c.ImsMod2 c.ImsLength c.ImsDelta c.ImsDolby
      c.ImsDeltaOffs (c.ImsDeltaLen + 1).toNat 0 c.ImsMod1 0 c.ImsDeltaOld s.ims
  let c : Cdb := { c with ImsMod1 := r.1, ImsDeltaOld := r.2.1 }
  let c : Cdb :=
    if c.ImsDelta ≠ 0 then
      let c : Cdb :=
        { c with ImsDelta := toS8 (jsAnd (c.ImsDelta + c.ImsFSpeed) 0xFFFF),
                 ImsFLen1 := c.ImsFLen1 - 1 }
      if c.ImsFLen1 = 0 then { c with ImsFLen1 := c.ImsFLen2, ImsFSpeed := -c.ImsFSpeed }
      else c
    else c
  let c : Cdb :=
    if c.ImsMod1Add ≠ 0 then
      let c : Cdb :=
        { c with ImsMod1 := toInt32 (c.ImsMod1 + shl32 (toS16 c.ImsMod1Add) 16),
                 ImsMod1Len := c.ImsMod1Len - 1 }
      if c.ImsMod1Len = 0 then
        let c : Cdb := { c with ImsMod1Len := c.ImsMod1Len2 }
        if c.ImsMod1Len2 ≠ 0 then { c with ImsMod1Add := -c.ImsMod1Add } else c
      else c
    else c
  let c : Cdb :=
    if c.ImsMod2Add ≠ 0 then
      let c : Cdb :=
        { c with ImsMod2 := toInt32 (c.ImsMod2 + toS16 c.ImsMod2Add),
                 ImsMod2Len := c.ImsMod2Len - 1 }
      if c.ImsMod2Len = 0 then
        let c : Cdb := { c with ImsMod2Len := c.ImsMod2Len2 }
        if c.ImsMod2Len2 ≠ 0 then { c with ImsMod2Add := -c.ImsMod2Add } else c
      else c
    else c
  setC { s with ims := r.2.2 } cc c

/-- The AddBegin (sample-start vibrato) block of DoEffects. -/
def effAddBegin (cc : ℤ) (s : PState) : PState :=
  let c : Cdb := getC s cc
  if c.AddBeginCount1 ≠ 0 then
    let addr := c.CurAddr + c.AddBegin
    let c : Cdb := { c with CurAddr := addr, SaveAddr := addr }
    let s : PState :=
      if c.ImsDeltaLen ≠ 0 then setC s cc { c with ImsStart := addr }
      else
        let hw := getH s c.hwIdx
        setC (setH s c.hwIdx { hw with SampleStart := addr, sbeg := addr }) cc c
    let c : Cdb := getC s cc
    let c : Cdb := { c with AddBeginCount1 := c.AddBeginCount1 - 1 }
    let c :=
      if c.AddBeginCount1 = 0 then
        { c with AddBeginCount1 := c.AddBeginCount2, AddBegin := -c.AddBegin }
      else c
    setC s cc c
  else s

/-- The vibrato block of DoEffects. -/
def effVibrato (cc : ℤ) (s : PState) : PState :=
  let c : Cdb := getC s cc
  if c.VibReset ≠ 0 then
    let vibOffset := c.VibOffset + c.VibWidth
    let c : Cdb := { c with VibOffset := vibOffset }
    let period : ℤ :=
      if vibOffset ≠ 0 then (shru32 (c.DestPeriod * (0x800 + vibOffset)) 11 : ℕ)
      else c.DestPeriod
    let c : Cdb := if c.PortaRate = 0 then { c with CurPeriod := period } else c
    let c : Cdb := { c with VibTime := c.VibTime - 1 }
    let c :=
      if c.VibTime = 0 then
        { c with VibTime := sar32 c.VibReset 1, VibWidth := -c.VibWidth }
      else c
    setC s cc c
  else s

/-- The portamento block of DoEffects. -/
def effPorta (cc : ℤ) (s : PState) : PState :=
  let c : Cdb := getC s cc
  if c.PortaRate ≠ 0 then
    let c : Cdb := { c with PortaTime := c.PortaTime - 1 }
    if c.PortaTime = 0 then
      let c : Cdb := { c with PortaTime := c.PortaReset }
      let destPeriod := c.DestPeriod
      let pp := c.PortaPer
      let r : Prod _ _ :=
        if pp = destPeriod then (c.PortaRate, pp)
        else if pp < destPeriod then
          let pp := sar32 (pp * (256 + c.PortaRate)) 8
          if pp ≥ destPeriod then ((0 : ℤ), destPeriod) else (c.PortaRate, pp)
        else
          let pp := sar32 (pp * (256 - c.PortaRate) - 128) 8
          if pp ≤ destPeriod then ((0 : ℤ), destPeriod) else (c.PortaRate, pp)
      let rate := if pp = destPeriod then (0 : ℤ) else r.1
      let pp := (toU32 r.2 % 2048 : ℕ)
      setC s cc { c with PortaRate := rate, PortaPer := pp, CurPeriod := pp }
    else setC s cc c
  else s

/-- The envelope block of DoEffects. -/
def effEnvelope (cc : ℤ) (s : PState) : PState :=
  let c : Cdb := getC s cc
  if c.EnvReset ≠ 0 then
    if c.EnvTime = 0 then
      let c : Cdb := { c with EnvTime := c.EnvReset }
      let endVol := c.EnvEndvol
      let curVol := c.CurVol
      let r : Prod _ _ :=
        if curVol = endVol then ((0 : ℤ), curVol)
        else if curVol > endVol then
          let cv := curVol - c.EnvRate
          if cv ≤ endVol then ((0 : ℤ), endVol) else (c.EnvReset, cv)
        else
          let cv := curVol + c.EnvRate
          if cv ≥ endVol then ((0 : ℤ), endVol) else (c.EnvReset, cv)
      setC s cc { c with EnvReset := r.1, CurVol := r.2 }
    else setC s cc { c with EnvTime := c.EnvTime - 1 }
  else s

/-- The master-fade block at the end of DoEffects. -/
def effMasterFade (s : PState) : PState :=
  if s.mdb.FadeSlope ≠ 0 then
    let m : Mdb := { s.mdb with FadeTime := s.mdb.FadeTime - 1 }
    if m.FadeTime = 0 then
      let m : Mdb := { m with FadeTime := m.FadeReset, MasterVol := m.MasterVol + m.FadeSlope }
      let m : Mdb := if m.FadeDest = m.MasterVol then { m with FadeSlope := 0 } else m
      { s with mdb := m }
    else { s with mdb := m }
  else s

/-- DoEffects from TFMXPlayer.ts: the per-controller per-tick effects pass
(the AddBegin, IMS, vibrato, portamento, envelope and master-fade blocks in
source order). -/
def doEffects (k : Const) (cc : ℤ) (s : PState) : PState :=
  let c : Cdb := getC s cc
  if c.EfxRun < 0 then s
  else if c.EfxRun = 0 then setC s cc { c with EfxRun := 1 }
  else
    let s := effAddBegin cc s
    let s := if (getC s cc).ImsDeltaLen ≠ 0 then doImsSynthesis k cc s else s
    let s := effVibrato cc s
    let s := effPorta cc s
    let s := effEnvelope cc s
    effMasterFade s

/-! ## DoMacro, the per-tick channel pass -/

/-- Period-to-delta conversion of DoMacro:
(3579545 << 9) / ((CurPeriod * outRate) >> 5), then ToUint32 of the float
quotient; zero when the period is zero (and on the division-by-zero
Infinity). -/
def periodToDelta (outRate curPeriod : ℤ) : ℤ :=
  if curPeriod = 0 then 0
  else
    let den := sar32 (curPeriod * outRate) 5
    if den = 0 then 0
    else ((toU32 (jsTruncDiv (shl32 3579545 9) den) : ℕ) : ℤ)

/-- The hardware-channel update block at the end of DoMacro. -/
def doMacroHw (k : Const) (masterVol : ℤ) (c : Cdb) (hw : Hdb) : Hdb :=
  let hw := { hw with delta := periodToDelta k.outRate c.CurPeriod }
  let hw :=
    if c.ImsDeltaLen ≠ 0 then
      { hw with SampleStart := c.ImsDeltaOffs, SampleLength := c.ImsDeltaLen + 1,
                useImsBuffer := true }
    else
      { hw with SampleStart := c.SaveAddr,
                SampleLength := if c.SaveLen ≠ 0 then shl32 c.SaveLen 1 else 131072,
                useImsBuffer := false }
  let hw :=
    if jsAnd hw.mode 3 = 1 then { hw with sbeg := hw.SampleStart, slen := hw.SampleLength }
    else hw
  { hw with vol := sar32 (((toU32 c.CurVol % 256 : ℕ) : ℤ) * masterVol) 6 }

/-- DoMacro from TFMXPlayer.ts. -/
def doMacro (k : Const) (cc : ℤ) (s : PState) : PState :=
  let c := getC s cc
  let s :=
    if c.SfxLockTime ≥ 0 then setC s cc { c with SfxLockTime := c.SfxLockTime - 1 }
    else setC s cc { c with SfxFlag := 0, SfxPriority := 0 }
  let c := getC s cc
  let sfxA := c.SfxCode
  let s :=
    if sfxA ≠ 0 then
      let s := setC s cc { c with SfxFlag := 0, SfxCode := 0 }
      let s := notePort k s (toU32 sfxA)
      let c := getC s cc
      setC s cc { c with SfxFlag := c.SfxPriority }
    else s
  let c := getC s cc
  let nRun := c.MacroRun
  let nWait := c.MacroWait
  let s := setC s cc { c with MacroWait := c.MacroWait - 1 }
  let s := if nRun ≠ 0 ∧ nWait = 0 then runMacro k cc s else s
  let s := doEffects k cc s
  let c := getC s cc
  let hw := getH s c.hwIdx
  setH s c.hwIdx (doMacroHw k s.mdb.MasterVol c hw)

/-- DoAllMacros: channels 0, 1, 2, then 4..7 in multimode, then 3. -/
def doAllMacros (k : Const) (s : PState) : PState :=
  let s := doMacro k 2 (doMacro k 1 (doMacro k 0 s))
  let s :=
    if s.multimode ≠ 0 then doMacro k 7 (doMacro k 6 (doMacro k 5 (doMacro k 4 s)))
    else s
  doMacro k 3 s

/-! ## Track sequencer and pattern interpreter -/

/-- readTrackstepWord: the trackstep area viewed as 16-bit halfwords of the
32-bit editbuf words. -/
def readTrackstepWord (k : Const) (wordIndex : ℤ) : ℤ :=
  let i32Index := k.trackstart + sar32 wordIndex 1
  let val := readEditbuf k i32Index
  if toU32 wordIndex % 2 = 1 then ((toU32 val % 65536 : ℕ) : ℤ)
  else ((toU32 val / 65536 % 65536 : ℕ) : ℤ)

/-- One track assignment of a pattern-row trackstep line. -/
def loadTrackRow (k : Const) (s : PState) (i : ℕ) (word : ℤ) : PState :=
  let pXpose := toS8 (jsAnd word 0xFF)
  let pNum : ℕ := toU32 (sar32 word 8) % 256
  let q := getP s i
  if pNum < 0x80 then
    setP s i { q with PXpose := pXpose, PNum := (pNum : ℤ), PStep := 0, PWait := 0,
                      PLoop := 0xFFFF, PAddr := patternAt k pNum }
  else
    setP s i { q with PXpose := pXpose, PNum := (pNum : ℤ) }

/-- Apply loadTrackRow to tracks i, i+1, ... (n tracks). -/
def loadTrackRowsGo (k : Const) (base : ℤ) : ℕ → ℕ → PState → PState
  | 0, _, s => s
  | n + 1, i, s =>
    loadTrackRowsGo k base n (i + 1) (loadTrackRow k s i (readTrackstepWord k (base + i)))

/-- GetTrackStep from TFMXPlayer.ts (fuel-bounded: meta rows continue the
loop). -/
def getTrackStep (k : Const) : ℕ → PState → PState
  | 0, s => s
  | fuel + 1, s =>
    if s.pdb.CurrPos = s.pdb.FirstPos ∧ s.loops < 0 then
      { s with mdb := { s.mdb with PlayerEnable := 0 } }
    else
      let base := s.pdb.CurrPos * 8
      let l0 := readTrackstepWord k base
      let l1 := readTrackstepWord k (base + 1)
      let l2 := readTrackstepWord k (base + 2)
      let l3 := readTrackstepWord k (base + 3)
      let s := { s with jiffies := 0 }
      if l0 = 0xEFFE then
        if l1 = 0 then { s with mdb := { s.mdb with PlayerEnable := 0 } }
        else if l1 = 1 then
          let r : PState × Bool :=
            if s.loops ≠ 0 then
              let s := { s with loops := s.loops - 1 }
              if s.loops = 0 then ({ s with mdb := { s.mdb with PlayerEnable := 0 } }, true)
              else (s, false)
            else (s, false)
          if r.2 then r.1
          else
            let s := r.1
            let oldTL := s.mdb.TrackLoop
            let s := { s with mdb := { s.mdb with TrackLoop := s.mdb.TrackLoop - 1 } }
            if oldTL = 0 then
              getTrackStep k fuel
                { s with mdb := { s.mdb with TrackLoop := -1 },
                         pdb := { s.pdb with CurrPos := s.pdb.CurrPos + 1 } }
            else
              let s : PState :=
                if s.mdb.TrackLoop < 0 then { s with mdb := { s.mdb with TrackLoop := l3 } }
                else s
              getTrackStep k fuel { s with pdb := { s.pdb with CurrPos := l2 } }
        else if l1 = 2 then
          let s := { s with mdb := { s.mdb with SpeedCnt := l2 },
                            pdb := { s.pdb with Prescale := l2 } }
          let bpmVal := jsAnd l3 0x1FF
          let s :=
            if jsAnd l3 0xF200 = 0 ∧ bpmVal > 0xF then
              { s with mdb := { s.mdb with CIASave := Int.ediv 0x1B51F8 bpmVal },
                       eClocks := Int.ediv 0x1B51F8 bpmVal }
            else s
          getTrackStep k fuel { s with pdb := { s.pdb with CurrPos := s.pdb.CurrPos + 1 } }
        else if l1 = 3 then
          let s :=
            if jsAnd l3 0x8000 = 0 then
              let signedX := toS8 (jsAnd l3 0xFF)
              let signedX := if signedX < -0x20 then -0x20 else signedX
              { s with mdb := { s.mdb with CIASave := Int.ediv (14318 * (signedX + 100)) 100 },
                       eClocks := Int.ediv (14318 * (signedX + 100)) 100,
                       multimode := 1 }
            else s
          getTrackStep k fuel { s with pdb := { s.pdb with CurrPos := s.pdb.CurrPos + 1 } }
        else if l1 = 4 then
          let s := doFadeSt s (jsAnd l2 0xFF) (jsAnd l3 0xFF)
          getTrackStep k fuel { s with pdb := { s.pdb with CurrPos := s.pdb.CurrPos + 1 } }
        else
          getTrackStep k fuel { s with pdb := { s.pdb with CurrPos := s.pdb.CurrPos + 1 } }
      else
        loadTrackRowsGo k base 8 0 s

/-- The instruction loop of DoTrack (fuel-bounded).  Returns the state and
the DoTrack return value (1 when the trackstep advanced). -/
def doTrackLoop (k : Const) (muted : Bool) (x : ℕ) : ℕ → PState → PState × ℤ
  | 0, s => (s, 0)
  | fuel + 1, s =>
    let p := getP s x
    let raw := readEditbuf k (p.PAddr + p.PStep)
    let s := setP s x { p with PStep := p.PStep + 1 }
    let p := getP s x
    let u := toU32 raw
    let t := b0 u
    if t < 0xF0 then
      -- note opcode
      let s := if t / 64 = 2 then setP s x { p with PWait := (b3 u : ℤ) } else s
      let nb3 : ℕ := if t / 64 = 2 then 0 else b3 u
      let p := getP s x
      let nb0 : ℕ := toU32 ((t : ℤ) + p.PXpose) % 64
      let nb0 : ℕ := if t / 64 = 3 then nb0 + 0xC0 else nb0
      let nl := nb0 * 16777216 + b1 u * 65536 + b2 u * 256 + nb3
      let s := if ¬ muted then notePort k s nl else s
      if t / 64 = 2 then (s, 0) else doTrackLoop k muted x fuel s
    else
      match t % 16 with
      | 0 =>
        -- End
        let s := setP s x { p with PNum := 0xFF }
        let newPos := if s.pdb.CurrPos = s.pdb.LastPos then s.pdb.FirstPos
                      else s.pdb.CurrPos + 1
        let s := { s with pdb := { s.pdb with CurrPos := newPos } }
        (getTrackStep k k.fuel s, 1)
      | 1 =>
        -- Loop
        if p.PLoop = 0 then doTrackLoop k muted x fuel (setP s x { p with PLoop := 0xFFFF })
        else
          let p := if p.PLoop = 0xFFFF then { p with PLoop := (b1 u : ℤ) } else p
          doTrackLoop k muted x fuel
            (setP s x { p with PLoop := p.PLoop - 1, PStep := (w1 u : ℤ) })
      | 8 =>
        -- GsPt, falls through to Cont
        let p := { p with PRoAddr := p.PAddr, PRoStep := p.PStep }
        doTrackLoop k muted x fuel
          (setP s x { p with PAddr := patternAt k (b1 u), PStep := (w1 u : ℤ) })
      | 2 =>
        doTrackLoop k muted x fuel
          (setP s x { p with PAddr := patternAt k (b1 u), PStep := (w1 u : ℤ) })
      | 3 => (setP s x { p with PWait := (b1 u : ℤ) }, 0)
      | 14 =>
        -- StCu, falls through to Stop
        let s := { s with mdb := { s.mdb with PlayPattFlag := 0 } }
        (setP s x { p with PNum := 0xFF }, 0)
      | 4 => (setP s x { p with PNum := 0xFF }, 0)
      | 5 => doTrackLoop k muted x fuel (if ¬ muted then notePort k s u else s)
      | 6 => doTrackLoop k muted x fuel (if ¬ muted then notePort k s u else s)
      | 7 => doTrackLoop k muted x fuel (if ¬ muted then notePort k s u else s)
      | 12 => doTrackLoop k muted x fuel (if ¬ muted then notePort k s u else s)
      | 9 => doTrackLoop k muted x fuel (setP s x { p with PAddr := p.PRoAddr, PStep := p.PRoStep })
      | 10 => doTrackLoop k muted x fuel (doFadeSt s (b1 u) (b3 u))
      | 13 => doTrackLoop k muted x fuel (setCue s (b1 u % 4) (w1 u))
      | 11 =>
        let trackIdx : ℕ := b2 u % 8
        let q := getP s trackIdx
        doTrackLoop k muted x fuel
          (setP s trackIdx { q with PNum := (b1 u : ℤ), PAddr := patternAt k (b1 u),
                                    PXpose := toS8 (b3 u), PStep := 0, PWait := 0,
                                    PLoop := 0xFFFF })
      | _ => doTrackLoop k muted x fuel s

/-- DoTrack from TFMXPlayer.ts for track x: the entry gates, then the
instruction loop. -/
def doTrackAt (k : Const) (muted : List Bool) (x : ℕ) (s : PState) : PState × ℤ :=
  let m := muted.getD x false
  let p := getP s x
  if p.PNum = 0xFE then
    let s := setP s x { p with PNum := p.PNum + 1 }
    (if ¬ m then channelOff s p.PXpose else s, 0)
  else if p.PAddr = 0 ∧ p.PNum ≠ 0 then (s, 0)
  else if p.PNum ≥ 0x90 then (s, 0)
  else if p.PWait ≠ 0 then (setP s x { p with PWait := p.PWait - 1 }, 0)
  else doTrackLoop k m x k.fuel s

/-- One left-to-right scan over the eight tracks; stops early (with true)
when a DoTrack reports a trackstep advance. -/
def trackPassGo (k : Const) (muted : List Bool) : ℕ → ℕ → PState → PState × Bool
  | 0, _, s => (s, false)
  | n + 1, x, s =>
    let r := doTrackAt k muted x s
    if r.2 = 1 then (r.1, true) else trackPassGo k muted n (x + 1) r.1

/-- The restart loop of DoTracks: when a scan reports an advance, restart
from track 0 (fuel-bounded). -/
def doTracksGo (k : Const) (muted : List Bool) : ℕ → PState → PState
  | 0, s => s
  | rf + 1, s =>
    let r := trackPassGo k muted 8 0 s
    if r.2 then doTracksGo k muted rf r.1 else r.1

/-- DoTracks from TFMXPlayer.ts: the speed prescaler, then the track scan. -/
def doTracks (k : Const) (muted : List Bool) (s : PState) : PState :=
  let s := { s with jiffies := s.jiffies + 1 }
  let oldSpeedCnt := s.mdb.SpeedCnt
  let s := { s with mdb := { s.mdb with SpeedCnt := s.mdb.SpeedCnt - 1 } }
  if oldSpeedCnt = 0 then
    doTracksGo k muted k.fuel { s with mdb := { s.mdb with SpeedCnt := s.pdb.Prescale } }
  else s

/-- tfmxIrqIn: one tick. -/
def tick (k : Const) (muted : List Bool) (s : PState) : PState :=
  if s.mdb.PlayerEnable = 0 then s
  else
    let s := doAllMacros k s
    if 0 ≤ s.mdb.CurrSong then doTracks k muted s else s

/-! ## Initialisation (allOff / tfmxInit / enableForPreview) -/

/-- The constructor state of TFMXPlayer (createMdb, createPdblk, createCdb,
createHdb, initStructs).  The default eClocks value DEFAULT_ECLOCKS comes
from the absent constants.ts; its concrete value does not enter any claim,
14318 stands in for it (modelled from the spec, which only fixes eClocks
through the tempo formulas). -/
def PState.fresh : PState :=
  { mdb := Mdb.init, pdb := Pdblk.init,
    cdb := (List.range 16).map Cdb.init,
    hdb := (List.range 8).map Hdb.init,
    cue := [0, 0, 0, 0], ims := List.replicate 4096 0,
    multimode := 0, eClocks := 14318, jiffies := 0, loops := 0 }

/-- The per-channel body of allOff. -/
def allOffCh (s : PState) (x : ℕ) : PState :=
  let c := getC s x
  let c := { c with hwIdx := (x : ℤ), MacroWait := 0, MacroRun := 0, SfxFlag := 0,
                    CurVol := 0, SfxCode := 0, SaveAddr := 0, Loop := -1,
                    NewStyleMacro := 0xFF, SfxLockTime := -1, SaveLen := 2 }
  let s := setC s x c
  let hw := getH s x
  setH s x { hw with cIdx := (x : ℤ), mode := 0, vol := 0, sbeg := 0,
                     SampleStart := 0, SampleLength := 2, slen := 2, loopOn := false }

/-- allOff from TFMXPlayer.ts. -/
def allOff (s : PState) : PState :=
  let s := { s with mdb := { s.mdb with PlayerEnable := 0 } }
  (List.range 8).foldl allOffCh s

/-- The per-channel body of tfmxInit. -/
def tfmxInitCh (s : PState) (x : ℕ) : PState :=
  let hw := getH s x
  let s := setH s x { hw with cIdx := (x : ℤ) }
  let q := getP s x
  let s := setP s x { q with PNum := 0xFF, PAddr := 0 }
  channelOff s x

/-- tfmxInit from TFMXPlayer.ts. -/
def tfmxInit (s : PState) : PState :=
  (List.range 8).foldl tfmxInitCh (allOff s)

/-- enableForPreview from TFMXPlayer.ts. -/
def enableForPreview (s : PState) : PState :=
  { s with mdb := { s.mdb with PlayerEnable := 1, CurrSong := -1 } }

/-! ## Mixer (TFMXAudio.ts)

mixAdd is split into the faithful state transformer plus a contribution
list: the source adds `sample * v` into `buf[i]`; here those addends are
collected (one entry per produced sample, zero where the source adds
nothing) and the pointwise addition into the buffer is a separate step.
The loop callbacks loopOff / loopOn of TFMXPlayer are interpreted through
the `loopOn` flag of the Hdb.
-/

/-- Mixer configuration: the sample bank and the oversampling switch. -/
structure MixEnv where
  smpl : List ℤ
  ovs : Bool

/-- hw.loop(hw): loopOff returns 1; loopOn (from TFMXPlayer) post-decrements
the owning controller's WaitDMACount and, once it runs out, reinstalls
loopOff and awakens the macro.  Both always return 1. -/
def applyLoop (hw : Hdb) (cdb : List Cdb) : Hdb × List Cdb × ℤ :=
  if hw.loopOn then
    if 0 ≤ hw.cIdx ∧ hw.cIdx < (cdb.length : ℤ) then
      let c := cdb.getD hw.cIdx.toNat (Cdb.init 0)
      if c.WaitDMACount > 0 then
        (hw, cdb.set hw.cIdx.toNat { c with WaitDMACount := c.WaitDMACount - 1 }, 1)
      else
        ({ hw with loopOn := false },
         cdb.set hw.cIdx.toNat
           { c with WaitDMACount := c.WaitDMACount - 1, MacroRun := -1 }, 1)
    else (hw, cdb, 1)  -- if (!c) return 1
  else (hw, cdb, 1)

/-- The per-sample loop of mixAdd.  The loop state carries the local
variables p, ps, d, l of the source together with the channel, the
controller array and the reversed contribution list. -/
def mixLoop (env : MixEnv) : ℕ → ℤ → ℤ → ℤ → ℤ → Hdb → List Cdb → List ℤ →
    ℤ × ℤ × ℤ × Hdb × List Cdb × List ℤ
  | 0, p, ps, d, _l, hw, cdb, acc => (p, ps, d, hw, cdb, acc.reverse)
  | n + 1, p, ps, d, l, hw, cdb, acc =>
    let ps := ps + d
    let sampleIdx := p + sar32 ps 14
    let v := min hw.vol 0x40
    let contrib : ℤ :=
      if 0 ≤ sampleIdx ∧ sampleIdx < (env.smpl.length : ℤ) then
        if env.ovs then
          let v1 := env.smpl.getD sampleIdx.toNat 0
          let nextIdx := sampleIdx + 1
          let v2 := if nextIdx < (env.smpl.length : ℤ) then env.smpl.getD nextIdx.toNat 0 else 0
          let frac : ℤ := (toU32 ps % 16384 : ℕ)
          (v1 + sar32 ((v2 - v1) * frac) 14) * v
        else
          (env.smpl.getD sampleIdx.toNat 0) * v
      else 0
    let acc := contrib :: acc
    if ps < l then
      mixLoop env n p ps d l hw cdb acc
    else
      let ps := ps - l
      let p := hw.SampleStart
      let newLen := hw.SampleLength
      let hw := { hw with slen := newLen }
      let l := shl32 newLen 14
      let lp := applyLoop hw cdb
      let hw := lp.1
      let cdb := lp.2.1
      if l < 0x10000 ∨ lp.2.2 = 0 then
        ((0 : ℤ), (0 : ℤ), (0 : ℤ), { hw with slen := 0 }, cdb, acc.reverse)
      else
        mixLoop env n p ps d l hw cdb acc

/-- mixAdd from TFMXAudio.ts: returns the updated channel, the updated
controller array, and the list of addends put into the buffer. -/
def mixAdd (env : MixEnv) (hw : Hdb) (cdb : List Cdb) (n : ℕ) :
    Hdb × List Cdb × List ℤ :=
  let p := hw.sbeg
  let ps := hw.pos
  let v := min hw.vol 0x40
  let d := hw.delta
  let l := shl32 hw.slen 14
  if jsAnd hw.mode 1 = 0 ∨ l < 0x10000 then (hw, cdb, [])
  else if v = 0 ∧ d = 0 then (hw, cdb, [])
  else
    -- if ((hw.mode & 3) === 1) arm the channel
    let st :=
      if jsAnd hw.mode 3 = 1 then
        (hw.SampleStart, (0 : ℤ), shl32 hw.SampleLength 14,
         { hw with sbeg := hw.SampleStart, slen := hw.SampleLength, mode := jsOr hw.mode 2 })
      else (p, ps, l, hw)
    let p := st.1
    let ps := st.2.1
    let l := st.2.2.1
    let hw := st.2.2.2
    if v = 0 then
      ({ hw with sbeg := p, pos := ps, delta := d }, cdb, [])
    else
      let r := mixLoop env n p ps d l hw cdb []
      let hw := r.2.2.2.1
      let cdb := r.2.2.2.2.1
      let hw := { hw with sbeg := r.1, pos := r.2.1, delta := r.2.2.1 }
      let hw := if jsAnd hw.mode 4 ≠ 0 then { hw with mode := 0 } else hw
      (hw, cdb, r.2.2.2.2.2)

/-- Mixer-facing state: the channels, the controllers and the two
accumulator buffers. -/
structure MixState where
  hdb : List Hdb
  cdb : List Cdb
  bufL : ℕ → ℤ
  bufR : ℕ → ℤ

/-- Pointwise addition of a contribution list into a buffer. -/
def addContrib (buf : ℕ → ℤ) (cs : List ℤ) : ℕ → ℤ :=
  fun i => buf i + cs.getD i 0

/-- Run mixAdd for hardware channel `j` and add its contributions into the
selected buffer (left = true). -/
def mixStep (env : MixEnv) (st : MixState) (j : ℕ) (toLeft : Bool) (n : ℕ) : MixState :=
  let hw := st.hdb.getD j (Hdb.init 0)
  let r := mixAdd env hw st.cdb n
  { st with
    hdb := st.hdb.set j r.1
    cdb := r.2.1
    bufL := if toLeft then addContrib st.bufL r.2.2 else st.bufL
    bufR := if toLeft then st.bufR else addContrib st.bufR r.2.2 }

/-- mixChannels from TFMXAudio.ts: the channel-to-side dispatch order of the
source (multimode mixes 4,5,6,7 to the left, otherwise channel 3 to the
left; then 0 to the left and 1, 2 to the right). -/
def mixChannels (env : MixEnv) (multimode : Bool) (st : MixState) (n : ℕ) : MixState :=
  let st :=
    if multimode then
      mixStep env (mixStep env (mixStep env (mixStep env st 4 true n) 5 true n) 6 true n) 7 true n
    else
      mixStep env st 3 true n
  let st := mixStep env st 0 true n
  let st := mixStep env st 1 false n
  mixStep env st 2 false n

/-! ## Iterated ticks and concrete scenario states -/

/-- Iterate the tick function. -/
def tickIter (k : Const) (m : List Bool) : ℕ → PState → PState
  | 0, s => s
  | n + 1, s => tickIter k m n (tick k m s)

/-- A List Bool of eight unmuted tracks. -/
def noMute : List Bool := List.replicate 8 false

/-- Minimal run configuration: empty module data. -/
def emptyConst : Const :=
  { editbuf := [], patterns := [], macros := [], smpl := [],
    notevals := [], trackstart := 0, outRate := 44100, gemx := 0,
    dangerFreakHack := 0, fuel := 16 }

/-- Scenario state for the master-fade claim: the engine after tfmxInit,
put into preview mode (no song, so only the macro/effects pass runs), with
a fade to 0 at speed 2 started by DoFade. -/
def fadeStart : PState := doFadeSt (enableForPreview (tfmxInit PState.fresh)) 2 0

/-- Module data whose macro 0 is [SetVolume 0xFF, Stop]. -/
def setVolConst : Const :=
  { emptyConst with editbuf := [0x0E0000FF, 0x07000000], macros := [0] }

/-- Preview-mode state with controller 0 armed to run macro 0. -/
def setVolState : PState :=
  let s := enableForPreview (tfmxInit PState.fresh)
  setC s 0 { getC s 0 with MacroRun := -1 }

/-- Module data for the mute-neutrality counterexample: editbuf word 0 is
the macro instruction Stop, word 1 the pattern instruction
note-and-wait(note 0, macro 0, wait 1), word 2 the pattern command Cont
back to step 0 (values are the host-order int32 views of 0x07000000,
0x80000001 and 0xF2000000). -/
def muteConst : Const :=
  { emptyConst with editbuf := [117440512, -2147483647, -234881024],
                    patterns := [1], macros := [0] }

/-- Playing state for the mute-neutrality counterexample: track 0 runs
pattern 0 every tick and a master fade with slope -1 and period 1 is
active; all four controllers have their effects gate already open. -/
def muteState : PState :=
  let s := tfmxInit PState.fresh
  let s : PState :=
    { s with mdb := { s.mdb with PlayerEnable := 1, CurrSong := 0, SpeedCnt := 0,
                                 FadeSlope := -1, FadeDest := 0, FadeTime := 1,
                                 FadeReset := 1, MasterVol := 64 } }
  let s := setP s 0 { getP s 0 with PAddr := 1, PNum := 0, PStep := 0, PWait := 0 }
  let s := setC s 0 { getC s 0 with EfxRun := 1 }
  let s := setC s 1 { getC s 1 with EfxRun := 1 }
  let s := setC s 2 { getC s 2 with EfxRun := 1 }
  setC s 3 { getC s 3 with EfxRun := 1 }

/-- Mute vector with only track 0 muted. -/
def muteTrack0 : List Bool := true :: List.replicate 7 false

/-- Mixer scenario: eight constant-100 sample bytes, no oversampling. -/
def mixEnvC : MixEnv := { smpl := List.replicate 8 100, ovs := false }

/-- A just-armed (mode 1) silent channel with nonzero delta and displaced
sbeg/pos: the arming reset of mixAdd rewrites sbeg and pos. -/
def armedSilent : Hdb :=
  { Hdb.init 0 with mode := 1, sbeg := 5, SampleStart := 0, pos := 12345,
                    slen := 4, SampleLength := 4, vol := 0, delta := 7 }

/-- An active (mode 3) audible channel used as hardware channel 3. -/
def activeCh3 : Hdb :=
  { Hdb.init 3 with mode := 3, slen := 4, SampleLength := 4, sbeg := 0,
                    SampleStart := 0, pos := 0, delta := 16384, vol := 64 }

/-- Mixer state in which only hardware channel 3 produces sound. -/
def mixStateC : MixState :=
  { hdb := (List.range 8).map (fun i => if i = 3 then activeCh3 else Hdb.init i),
    cdb := (List.range 16).map Cdb.init,
    bufL := fun _ => 0, bufR := fun _ => 0 }

/-- Pattern data for the End-of-pattern witness: one End instruction
(0xF0000000, host-order -268435456). -/
def endConst : Const := { emptyConst with editbuf := [-268435456] }

/-- Cursor state for the End-of-pattern witness: track 0 at pattern address
0 (with pattern number 0, so the idle gate does not trigger), positioned at
the last trackstep position. -/
def endState : PState :=
  let s := tfmxInit PState.fresh
  let s : PState :=
    { s with pdb := { s.pdb with FirstPos := 2, LastPos := 5, CurrPos := 5 } }
  setP s 0 { getP s 0 with PAddr := 0, PNum := 0, PStep := 0, PWait := 0 }

/-- Part of the silent-channel setup shared by the C10 theorem and witness:
the armed-silent channel with the just-restarted bit also set. -/
def activeSilent : Hdb := { armedSilent with mode := 3 }

/-- Valid-magic 512-byte blob with zeroed start-offset fields. -/
def goodBlob : List ℕ :=
  [0x54, 0x46, 0x4D, 0x58, 0x2D, 0x53, 0x4F, 0x4E, 0x47, 0x20] ++ List.replicate 502 0

/-- Invalid-magic 512-byte blob ("NOT-TFMX  "). -/
def badBlob : List ℕ :=
  [0x4E, 0x4F, 0x54, 0x2D, 0x54, 0x46, 0x4D, 0x58, 0x20, 0x20] ++ List.replicate 502 0

/-- The module parsed from goodBlob. -/
def parsedGood : Module :=
  (parseTFMX goodBlob []).toOption.getD
    ⟨⟨[], [], [], [], 0, 0, 0⟩, [], [], [], [], 0, 0, 0⟩

/-- The master-block fields that do not belong to the running fade (the
fade dynamics MasterVol, FadeTime, FadeSlope are excluded: note dispatch
gates the fade stepping through efx_run, see the C9 counterexample). -/
def mdbT (m : Mdb) : ℤ × ℤ × ℤ × ℤ × ℤ × ℤ × ℤ × ℤ × ℤ × ℤ × ℤ × ℤ × ℤ × ℤ × ℤ :=
  (m.PlayerEnable, m.EndFlag, m.CurrSong, m.SpeedCnt, m.CIASave, m.SongCont,
   m.SongNum, m.PlayPattFlag, m.FadeDest, m.FadeReset, m.TrackLoop,
   m.DMAon, m.DMAoff, m.DMAstate, m.DMAAllow)

/-- The structural/timing projection of the player state: the pattern
block, the scheduling scalars, and the non-fade master fields.  Controller,
hardware, cue and IMS state, plus the fade dynamics, are excluded. -/
def projT (s : PState) :=
  (s.pdb, s.multimode, s.eClocks, s.jiffies, s.loops, mdbT s.mdb)

/-- Two states agree on everything muting can influence only indirectly:
the structural/timing projection. -/
def Agree (a b : PState) : Prop := projT a = projT b

/-- The projection paired with the integer return value of DoTrack. -/
def projTR (r : PState × ℤ) := (projT r.1, r.2)

/-- The projection paired with the Boolean advance flag of a track scan. -/
def projTB (r : PState × Bool) := (projT r.1, r.2)

/-! ## Theorems -/

/-- Reading a list element at the position just written. -/
theorem getD_set_self (xs : List α) (i : ℕ) (v d : α) :
    (xs.set i v).getD i d = if i < xs.length then v else d := by
  by_cases h : i < xs.length
  · simp [List.getD, List.getElem?_set_self, h]
  · simp [List.getD, List.getElem?_eq_none, h, List.length_set, Nat.le_of_not_lt]

/-- ToInt32 is the identity on the signed 32-bit range. -/
theorem toInt32_eq_self {v : ℤ} (h₁ : -2147483648 ≤ v) (h₂ : v < 2147483648) :
    toInt32 v = v := by
  unfold toInt32 toU32 u32asI32
  have hnn : 0 ≤ v.emod 4294967296 := Int.emod_nonneg v (by norm_num)
  have hc : ((v.emod 4294967296).toNat : ℤ) = v.emod 4294967296 := Int.toNat_of_nonneg hnn
  rcases le_or_lt 0 v with hv | hv
  · have he : v.emod 4294967296 = v := Int.emod_eq_of_lt hv (by omega)
    split <;> omega
  · have he : v.emod 4294967296 = v + 4294967296 := by
      have hstep : (v + 4294967296 * 1) % 4294967296 = v % 4294967296 :=
        Int.add_mul_emod_self_left v 4294967296 1
      have hval : (v + 4294967296) % 4294967296 = v + 4294967296 :=
        Int.emod_eq_of_lt (by omega) (by omega)
      rw [mul_one] at hstep
      show v % 4294967296 = v + 4294967296
      rw [← hstep, hval]
    split <;> omega

/-- Projection of the hardware update of DoMacro: the written delta is the
period-to-delta conversion of the controller period. -/
theorem doMacroHw_delta (k : Const) (mv : ℤ) (c : Cdb) (hw : Hdb) :
    (doMacroHw k mv c hw).delta = periodToDelta k.outRate c.CurPeriod := by
  simp only [doMacroHw]
  repeat' split
  all_goals rfl

/-- C1 (amended): after the effects pass, DoMacro writes the hardware delta
(3_579_545 << 9) / ((cur_period * out_rate) >> 5); with cur_period = 428 and
out_rate = 44100 the value is 3107 (so it lies within ±1 of 3107, not of
3_109_349 as the original claim stated). -/
theorem c1_delta_formula (k : Const) (mv : ℤ) (c : Cdb) (hw : Hdb)
    (hrate : k.outRate = 44100) (hper : c.CurPeriod = 428) :
    (doMacroHw k mv c hw).delta = 3107 ∧
    periodToDelta 44100 428 = 3107 := by
  rw [doMacroHw_delta, hrate, hper]
  exact ⟨by decide, by decide⟩

/-- C1 witness: the delta formula evaluated at the concrete inputs of the
claim. -/
theorem c1_delta_formula_witness :
    emptyConst.outRate = 44100 ∧
    ({ Cdb.init 0 with CurPeriod := 428 } : Cdb).CurPeriod = 428 ∧
    ((doMacroHw emptyConst 64 { Cdb.init 0 with CurPeriod := 428 } (Hdb.init 0)).delta = 3107 ∧
     periodToDelta 44100 428 = 3107) :=
  ⟨by decide, by decide,
   c1_delta_formula emptyConst 64 { Cdb.init 0 with CurPeriod := 428 } (Hdb.init 0)
     (by decide) (by decide)⟩

/-- C1 counterexample: the claimed formula evaluates to 3107, which does not
lie within ±1 of 3_109_349. -/
theorem c1_counterexample :
    periodToDelta 44100 428 = 3107 ∧
    ¬ (3109348 ≤ periodToDelta 44100 428 ∧ periodToDelta 44100 428 ≤ 3109350) := by
  exact ⟨by decide, by decide⟩

/-- C3: the table walk of parseTFMX records the word index -128 for a table
entry with raw value 0 (file offset 0 is below 0x200, so the signed Int32
subtraction goes negative) and keeps walking, so the recorded entry is not
in [0, words.len) and the walk did not stop first. -/
theorem c3_negative_index :
    (walkTable 1 128 0 [0, 3] []).2 = [-128] ∧ ¬ (0 ≤ (-128 : ℤ)) := by
  exact ⟨by decide, by decide⟩

/-- C5: for music-data blobs of at least header size, parseTFMX succeeds
exactly when the ten magic bytes start with one of the recognized prefixes;
a failure produces the FormatError value and no Module. -/
theorem c5_parse_magic (mdat smpl : List ℕ) (_hlen : 512 ≤ mdat.length) :
    (parseTFMX mdat smpl).isOk = magicValid mdat := by
  unfold parseTFMX
  by_cases h : magicValid mdat <;> simp [h, Except.isOk, Except.toBool]

/-- C5 witness: the wrong-magic blob of the spec scenario. -/
theorem c5_parse_magic_witness :
    512 ≤ badBlob.length ∧ (parseTFMX badBlob []).isOk = magicValid badBlob :=
  ⟨by decide, c5_parse_magic badBlob [] (by decide)⟩

/-- C6: a parsed module resolves each of the trackstart / pattstart /
macrostart header fields to the fixed fallback (0x180 / 0x80 / 0x100) when
the raw file offset is zero, and to (fileOffset - 0x200) / 4 (floor) when it
is nonzero, for offsets below 2^31 (larger ones wrap through ToInt32). -/
theorem c6_start_offsets (mdat smpl : List ℕ) (m : Module)
    (hok : parseTFMX mdat smpl = .ok m)
    (ht : (getU32 mdat 0x1D0 : ℤ) < 2147483648)
    (hp : (getU32 mdat 0x1D4 : ℤ) < 2147483648)
    (hm : (getU32 mdat 0x1D8 : ℤ) < 2147483648) :
    (m.hdr.trackstart = if getU32 mdat 0x1D0 = 0 then 0x180
      else Int.ediv ((getU32 mdat 0x1D0 : ℤ) - 0x200) 4) ∧
    (m.hdr.pattstart = if getU32 mdat 0x1D4 = 0 then 0x80
      else Int.ediv ((getU32 mdat 0x1D4 : ℤ) - 0x200) 4) ∧
    (m.hdr.macrostart = if getU32 mdat 0x1D8 = 0 then 0x100
      else Int.ediv ((getU32 mdat 0x1D8 : ℤ) - 0x200) 4) := by
  unfold parseTFMX at hok
  split at hok
  · exact Except.noConfusion hok
  · injection hok with hok
    subst hok
    refine ⟨?_, ?_, ?_⟩ <;>
      · simp only []
        split
        · rfl
        · simp only [sar32]
          rw [toInt32_eq_self (by omega) (by omega)]
          norm_num

/-- C6 witness: the zero-offset fallback on a concrete blob. -/
theorem c6_start_offsets_witness :
    parseTFMX goodBlob [] = .ok parsedGood ∧
    ((getU32 goodBlob 0x1D0 : ℤ) < 2147483648) ∧
    ((getU32 goodBlob 0x1D4 : ℤ) < 2147483648) ∧
    ((getU32 goodBlob 0x1D8 : ℤ) < 2147483648) ∧
    ((parsedGood.hdr.trackstart = if getU32 goodBlob 0x1D0 = 0 then 0x180
        else Int.ediv ((getU32 goodBlob 0x1D0 : ℤ) - 0x200) 4) ∧
     (parsedGood.hdr.pattstart = if getU32 goodBlob 0x1D4 = 0 then 0x80
        else Int.ediv ((getU32 goodBlob 0x1D4 : ℤ) - 0x200) 4) ∧
     (parsedGood.hdr.macrostart = if getU32 goodBlob 0x1D8 = 0 then 0x100
        else Int.ediv ((getU32 goodBlob 0x1D8 : ℤ) - 0x200) 4)) :=
  ⟨rfl, by decide, by decide, by decide,
   c6_start_offsets goodBlob [] parsedGood rfl (by decide) (by decide) (by decide)⟩

/-- C8: starting a master fade to destination 0 with speed 2 from
master_vol = 64 sets fade_slope to -1, and 128 ticks later the master
volume is 0 with the fade cleared (fade_slope 0). -/
theorem c8_master_fade :
    (enableForPreview (tfmxInit PState.fresh)).mdb.MasterVol = 64 ∧
    fadeStart.mdb.FadeSlope = -1 ∧
    (tickIter emptyConst noMute 128 fadeStart).mdb.MasterVol = 0 ∧
    (tickIter emptyConst noMute 128 fadeStart).mdb.FadeSlope = 0 :=
  ⟨by decide, by decide, by decide, by decide⟩

/-- C10 (amended): a mixer pass over a channel whose mode has bits 0 and 1
set (enabled and already restarted), whose fixed-point length is at least
0x10000 and whose volume is 0 while delta is nonzero leaves pos, sbeg and
delta (and the controllers) unchanged and contributes nothing to the
output buffer.  (The original claim asked this of every channel with bit 0
set; a just-armed channel with mode & 3 = 1 has sbeg and pos rewritten by
the arming reset.) -/
theorem c10_silent_channel (env : MixEnv) (hw : Hdb) (cdb : List Cdb) (n : ℕ)
    (hbit0 : jsAnd hw.mode 1 ≠ 0) (harmed : jsAnd hw.mode 3 ≠ 1)
    (hlen : 0x10000 ≤ shl32 hw.slen 14) (hvol : hw.vol = 0) (hdelta : hw.delta ≠ 0) :
    (mixAdd env hw cdb n).1.pos = hw.pos ∧
    (mixAdd env hw cdb n).1.sbeg = hw.sbeg ∧
    (mixAdd env hw cdb n).1.delta = hw.delta ∧
    (mixAdd env hw cdb n).2.1 = cdb ∧
    (mixAdd env hw cdb n).2.2 = [] := by
  unfold mixAdd
  rw [if_neg (by push_neg; exact ⟨hbit0, by omega⟩)]
  rw [if_neg (by rintro ⟨-, h⟩; exact hdelta h)]
  rw [if_neg harmed]
  rw [if_pos (by simp [hvol])]
  exact ⟨rfl, rfl, rfl, rfl, rfl⟩

/-- C10 witness: the silent active channel. -/
theorem c10_silent_channel_witness :
    jsAnd activeSilent.mode 1 ≠ 0 ∧ jsAnd activeSilent.mode 3 ≠ 1 ∧
    0x10000 ≤ shl32 activeSilent.slen 14 ∧ activeSilent.vol = 0 ∧
    activeSilent.delta ≠ 0 ∧
    ((mixAdd mixEnvC activeSilent [] 1).1.pos = activeSilent.pos ∧
     (mixAdd mixEnvC activeSilent [] 1).1.sbeg = activeSilent.sbeg ∧
     (mixAdd mixEnvC activeSilent [] 1).1.delta = activeSilent.delta ∧
     (mixAdd mixEnvC activeSilent [] 1).2.1 = [] ∧
     (mixAdd mixEnvC activeSilent [] 1).2.2 = []) :=
  ⟨by decide, by decide, by decide, by decide, by decide,
   c10_silent_channel mixEnvC activeSilent [] 1 (by decide) (by decide) (by decide)
     (by decide) (by decide)⟩

/-- C10 counterexample: a just-armed channel (mode 1) meets every
precondition of the original claim, yet one mixer pass rewrites its sbeg
from 5 to 0 and its pos from 12345 to 0. -/
theorem c10_counterexample :
    jsAnd armedSilent.mode 1 ≠ 0 ∧ 0x10000 ≤ shl32 armedSilent.slen 14 ∧
    armedSilent.vol = 0 ∧ armedSilent.delta ≠ 0 ∧
    (mixAdd mixEnvC armedSilent [] 1).1.sbeg = 0 ∧ armedSilent.sbeg = 5 ∧
    (mixAdd mixEnvC armedSilent [] 1).1.pos = 0 ∧ armedSilent.pos = 12345 ∧
    ((0 : ℤ) ≠ 5) :=
  ⟨by decide, by decide, by decide, by decide, by decide, by decide, by decide,
   by decide, by decide⟩

/-- C4 counterexample: a tick that executes the SetVolume macro opcode with
parameter byte 0xFF leaves controller 0 with cur_vol = 255, outside
[0, 64]. -/
theorem c4_counterexample :
    ((tick setVolConst noMute setVolState).cdb.getD 0 (Cdb.init 0)).CurVol = 255 ∧
    ¬ ((tick setVolConst noMute setVolState).cdb.getD 0 (Cdb.init 0)).CurVol ≤ 64 :=
  ⟨by decide, by decide⟩

/-- Reading a list element away from the position just written. -/
theorem getD_set_ne (xs : List α) {i j : ℕ} (v d : α) (h : i ≠ j) :
    (xs.set i v).getD j d = xs.getD j d := by
  simp [List.getD, List.getElem?_set_ne h]

/-- Both loop callbacks return 1. -/
theorem applyLoop_ret (hw : Hdb) (cdb : List Cdb) : (applyLoop hw cdb).2.2 = 1 := by
  simp only [applyLoop]
  repeat' split
  all_goals rfl

/-- The loop callbacks leave the volume and the loop sample region of the
channel untouched. -/
theorem applyLoop_fields (hw : Hdb) (cdb : List Cdb) :
    (applyLoop hw cdb).1.vol = hw.vol ∧
    (applyLoop hw cdb).1.SampleStart = hw.SampleStart ∧
    (applyLoop hw cdb).1.SampleLength = hw.SampleLength := by
  simp only [applyLoop]
  repeat' split
  all_goals exact ⟨rfl, rfl, rfl⟩

/-- The buffer contributions of the mixAdd sample loop depend on the
channel only through vol, SampleStart and SampleLength, and not on the
controller array at all (the loop callbacks always return 1). -/
theorem mixLoop_contrib (env : MixEnv) :
    ∀ (n : ℕ) (p ps d l : ℤ) (hw hw' : Hdb) (cdb cdb' : List Cdb) (acc : List ℤ),
    hw.vol = hw'.vol → hw.SampleStart = hw'.SampleStart →
    hw.SampleLength = hw'.SampleLength →
    (mixLoop env n p ps d l hw cdb acc).2.2.2.2.2 =
      (mixLoop env n p ps d l hw' cdb' acc).2.2.2.2.2 := by
  intro n
  induction n with
  | zero => intro _ _ _ _ _ _ _ _ _ _ _ _; rfl
  | succ n ih =>
    intro p ps d l hw hw' cdb cdb' acc hv hss hsl
    simp only [mixLoop]
    rw [hv, hss, hsl]
    split
    · exact ih _ _ _ _ _ _ _ _ _ hv hss hsl
    · rw [applyLoop_ret, applyLoop_ret]
      split
      · rfl
      · refine ih _ _ _ _ _ _ _ _ _ ?_ ?_ ?_ <;>
          simp [(applyLoop_fields _ _).1, (applyLoop_fields _ _).2.1,
                (applyLoop_fields _ _).2.2, hv, hss, hsl]

/-- The contribution list of mixAdd does not depend on the controller
array. -/
theorem mixAdd_contrib_irrel (env : MixEnv) (hw : Hdb) (n : ℕ) (cdb cdb' : List Cdb) :
    (mixAdd env hw cdb n).2.2 = (mixAdd env hw cdb' n).2.2 := by
  simp only [mixAdd]
  split_ifs <;>
    first
      | rfl
      | exact mixLoop_contrib env n _ _ _ _ _ _ cdb cdb' [] rfl rfl rfl

/-- C2 (amended): in every mixing burst the mixer adds channel 0 into the
left accumulator and channels 1 and 2 into the right; in 4-voice mode
channel 3 is also added to the left, while in 8-voice multimode channels
4, 5, 6 and 7 are added to the left INSTEAD of channel 3 (channel 3 is not
mixed then).  Each contribution is the mixAdd output of that channel
computed from the pre-burst state. -/
theorem c2_channel_mapping (env : MixEnv) (mm : Bool) (st : MixState) (n : ℕ) :
    ((mixChannels env mm st n).bufL = fun i => st.bufL i +
        (if mm then
          ((mixAdd env (st.hdb.getD 4 (Hdb.init 0)) st.cdb n).2.2.getD i 0 +
           (mixAdd env (st.hdb.getD 5 (Hdb.init 0)) st.cdb n).2.2.getD i 0 +
           (mixAdd env (st.hdb.getD 6 (Hdb.init 0)) st.cdb n).2.2.getD i 0 +
           (mixAdd env (st.hdb.getD 7 (Hdb.init 0)) st.cdb n).2.2.getD i 0)
         else (mixAdd env (st.hdb.getD 3 (Hdb.init 0)) st.cdb n).2.2.getD i 0) +
        (mixAdd env (st.hdb.getD 0 (Hdb.init 0)) st.cdb n).2.2.getD i 0) ∧
    ((mixChannels env mm st n).bufR = fun i => st.bufR i +
        (mixAdd env (st.hdb.getD 1 (Hdb.init 0)) st.cdb n).2.2.getD i 0 +
        (mixAdd env (st.hdb.getD 2 (Hdb.init 0)) st.cdb n).2.2.getD i 0) := by
  cases mm
  case false =>
    constructor
    · funext i
      simp [mixChannels, mixStep, addContrib]
      rw [mixAdd_contrib_irrel env (st.hdb[0]?.getD (Hdb.init 0)) n _ st.cdb]
    · funext i
      simp [mixChannels, mixStep, addContrib]
      rw [mixAdd_contrib_irrel env (st.hdb[1]?.getD (Hdb.init 0)) n _ st.cdb,
          mixAdd_contrib_irrel env (st.hdb[2]?.getD (Hdb.init 0)) n _ st.cdb]
  case true =>
    constructor
    · funext i
      simp [mixChannels, mixStep, addContrib]
      rw [mixAdd_contrib_irrel env (st.hdb[5]?.getD (Hdb.init 0)) n _ st.cdb,
          mixAdd_contrib_irrel env (st.hdb[6]?.getD (Hdb.init 0)) n _ st.cdb,
          mixAdd_contrib_irrel env (st.hdb[7]?.getD (Hdb.init 0)) n _ st.cdb,
          mixAdd_contrib_irrel env (st.hdb[0]?.getD (Hdb.init 0)) n _ st.cdb]
      ring
    · funext i
      simp [mixChannels, mixStep, addContrib]
      rw [mixAdd_contrib_irrel env (st.hdb[1]?.getD (Hdb.init 0)) n _ st.cdb,
          mixAdd_contrib_irrel env (st.hdb[2]?.getD (Hdb.init 0)) n _ st.cdb]

/-- C2 counterexample: a state in which only hardware channel 3 is audible.
In multimode the left accumulator stays 0, although the claim (channel 3
still mixed to the left) predicts the 6400 that channel 3 contributes. -/
theorem c2_counterexample :
    (mixChannels mixEnvC true mixStateC 1).bufL 0 = 0 ∧
    mixStateC.bufL 0 +
      (mixAdd mixEnvC (mixStateC.hdb.getD 0 (Hdb.init 0)) mixStateC.cdb 1).2.2.getD 0 0 +
      (mixAdd mixEnvC (mixStateC.hdb.getD 3 (Hdb.init 0)) mixStateC.cdb 1).2.2.getD 0 0 +
      (mixAdd mixEnvC (mixStateC.hdb.getD 4 (Hdb.init 0)) mixStateC.cdb 1).2.2.getD 0 0 +
      (mixAdd mixEnvC (mixStateC.hdb.getD 5 (Hdb.init 0)) mixStateC.cdb 1).2.2.getD 0 0 +
      (mixAdd mixEnvC (mixStateC.hdb.getD 6 (Hdb.init 0)) mixStateC.cdb 1).2.2.getD 0 0 +
      (mixAdd mixEnvC (mixStateC.hdb.getD 7 (Hdb.init 0)) mixStateC.cdb 1).2.2.getD 0 0 = 6400 ∧
    ((0 : ℤ) ≠ 6400) :=
  ⟨by decide, by decide, by decide⟩

/-- C4 (amended): not every macro opcode keeps cur_vol inside [0, 64]
(SetVolume stores its raw parameter byte, see the counterexample); the
AddVolume opcode (0x0D, parameter byte 2 different from 0xFE) does clamp,
leaving cur_vol in [0, 64] from any state. -/
theorem c4_addvolume_clamped (k : Const) (s : PState) (cc : ℤ) (lz : ℕ)
    (hb2 : b2 lz ≠ 0xFE) :
    0 ≤ (getC (macroCase k s cc 0x0D lz).1 cc).CurVol ∧
    (getC (macroCase k s cc 0x0D lz).1 cc).CurVol ≤ 64 := by
  simp only [macroCase]
  rw [if_pos hb2]
  simp only [getC, setC]
  rw [getD_set_self]
  split
  · dsimp only
    split_ifs <;> constructor <;> first | decide | omega
  · constructor <;> decide

/-- C4 witness: AddVolume with velocity 0 and detune byte 0xFF (signed -1)
clamps to 0. -/
theorem c4_addvolume_clamped_witness :
    b2 255 ≠ 0xFE ∧
    (0 ≤ (getC (macroCase emptyConst PState.fresh 0 0x0D 255).1 0).CurVol ∧
     (getC (macroCase emptyConst PState.fresh 0 0x0D 255).1 0).CurVol ≤ 64) :=
  ⟨by decide, c4_addvolume_clamped emptyConst PState.fresh 0 255 (by decide)⟩

/-- Reading the pattern cursor just written. -/
theorem getP_setP_self (s : PState) (x : ℕ) (q : Pdb) (hx : x < s.pdb.p.length) :
    getP (setP s x q) x = q := by
  simp [getP, setP, getD_set_self, hx]

/-- C7: when a pattern cursor that passes the DoTrack entry gates fetches an
End instruction (byte 0 equal to 0xF0), DoTrack marks the cursor idle
(PNum 0xFF, with the step already advanced past the instruction), advances
the trackstep position (wrapping from last_pos to first_pos, else
incrementing), loads the trackstep line at the new position via
GetTrackStep, and returns 1 ("step advanced", which makes DoTracks restart
its scan from track 0). -/
theorem c7_end_command (k : Const) (muted : List Bool) (x : ℕ) (s : PState)
    (hfuel : 0 < k.fuel) (hx : x < s.pdb.p.length)
    (hfe : (getP s x).PNum ≠ 0xFE)
    (hidle : ¬((getP s x).PAddr = 0 ∧ (getP s x).PNum ≠ 0))
    (hnum : ¬((getP s x).PNum ≥ 0x90))
    (hwait : (getP s x).PWait = 0)
    (hop : b0 (toU32 (readEditbuf k ((getP s x).PAddr + (getP s x).PStep))) = 0xF0) :
    doTrackAt k muted x s =
      (getTrackStep k k.fuel
        { s with pdb :=
            { s.pdb with
              p := s.pdb.p.set x
                { getP s x with PStep := (getP s x).PStep + 1, PNum := 0xFF }
              CurrPos := if s.pdb.CurrPos = s.pdb.LastPos then s.pdb.FirstPos
                         else s.pdb.CurrPos + 1 } },
       1) := by
  obtain ⟨f, hf⟩ : ∃ f, k.fuel = f + 1 := ⟨k.fuel - 1, by omega⟩
  unfold doTrackAt
  rw [if_neg hfe, if_neg hidle, if_neg hnum, if_neg (by simp [hwait])]
  rw [hf]
  simp only [doTrackLoop]
  rw [hop]
  norm_num
  rw [getP_setP_self s x _ hx]
  rw [← hf]
  congr 1
  congr 1
  simp [setP, List.set_set]

/-- C7 witness: the End instruction at the last trackstep position wraps
the position back to first_pos. -/
theorem c7_end_command_witness :
    0 < endConst.fuel ∧ 0 < endState.pdb.p.length ∧
    (getP endState 0).PNum ≠ 0xFE ∧
    ¬((getP endState 0).PAddr = 0 ∧ (getP endState 0).PNum ≠ 0) ∧
    ¬((getP endState 0).PNum ≥ 0x90) ∧
    (getP endState 0).PWait = 0 ∧
    b0 (toU32 (readEditbuf endConst ((getP endState 0).PAddr + (getP endState 0).PStep))) = 0xF0 ∧
    doTrackAt endConst noMute 0 endState =
      (getTrackStep endConst endConst.fuel
        { endState with pdb :=
            { endState.pdb with
              p := endState.pdb.p.set 0
                { getP endState 0 with PStep := (getP endState 0).PStep + 1, PNum := 0xFF }
              CurrPos := if endState.pdb.CurrPos = endState.pdb.LastPos then endState.pdb.FirstPos
                         else endState.pdb.CurrPos + 1 } },
       1) :=
  ⟨by decide, by decide, by decide, by decide, by decide, by decide, by decide,
   c7_end_command endConst noMute 0 endState (by decide) (by decide) (by decide)
     (by decide) (by decide) (by decide) (by decide)⟩

/-- Pattern blocks of agreeing states coincide. -/
theorem Agree.pdb_eq {a b : PState} (h : Agree a b) : a.pdb = b.pdb :=
  congrArg (fun t => t.1) h

/-- Multimode flags of agreeing states coincide. -/
theorem Agree.multimode_eq {a b : PState} (h : Agree a b) : a.multimode = b.multimode :=
  congrArg (fun t => t.2.1) h

/-- Loop counters of agreeing states coincide. -/
theorem Agree.loops_eq {a b : PState} (h : Agree a b) : a.loops = b.loops :=
  congrArg (fun t => t.2.2.2.2.1) h

/-- Non-fade master fields of agreeing states coincide. -/
theorem Agree.mdbT_eq {a b : PState} (h : Agree a b) : mdbT a.mdb = mdbT b.mdb :=
  congrArg (fun t => t.2.2.2.2.2) h

/-- PlayerEnable of agreeing states coincide. -/
theorem Agree.playerEnable_eq {a b : PState} (h : Agree a b) :
    a.mdb.PlayerEnable = b.mdb.PlayerEnable :=
  congrArg (fun t => t.1) h.mdbT_eq

/-- CurrSong of agreeing states coincide. -/
theorem Agree.currSong_eq {a b : PState} (h : Agree a b) :
    a.mdb.CurrSong = b.mdb.CurrSong :=
  congrArg (fun t => t.2.2.1) h.mdbT_eq

/-- SpeedCnt of agreeing states coincide. -/
theorem Agree.speedCnt_eq {a b : PState} (h : Agree a b) :
    a.mdb.SpeedCnt = b.mdb.SpeedCnt :=
  congrArg (fun t => t.2.2.2.1) h.mdbT_eq

/-- TrackLoop of agreeing states coincide. -/
theorem Agree.trackLoop_eq {a b : PState} (h : Agree a b) :
    a.mdb.TrackLoop = b.mdb.TrackLoop :=
  congrArg (fun t => t.2.2.2.2.2.2.2.2.2.2.1) h.mdbT_eq

/-- Writing a controller slot leaves the projection unchanged. -/
theorem projT_setC (s : PState) (i : ℤ) (c : Cdb) : projT (setC s i c) = projT s := rfl

/-- Writing a hardware slot leaves the projection unchanged. -/
theorem projT_setH (s : PState) (i : ℤ) (h : Hdb) : projT (setH s i h) = projT s := rfl

/-- Writing a cue slot leaves the projection unchanged. -/
theorem projT_setCue (s : PState) (i : ℕ) (v : ℤ) : projT (setCue s i v) = projT s := rfl

/-- NotePort only writes controller slots: the projection is unchanged. -/
theorem projT_notePort (k : Const) (s : PState) (i : ℕ) :
    projT (notePort k s i) = projT s := by
  simp only [notePort]
  repeat' split
  all_goals rfl

/-- ChannelOff only writes controller and hardware slots. -/
theorem projT_channelOff (s : PState) (i : ℤ) :
    projT (channelOff s i) = projT s := by
  simp only [channelOff]
  repeat' split
  all_goals rfl

/-- IMS synthesis only writes the controller and the IMS buffer. -/
theorem projT_doIms (k : Const) (cc : ℤ) (s : PState) :
    projT (doImsSynthesis k cc s) = projT s := rfl

/-- The MAYBEWAIT tail only writes the controller. -/
theorem projT_maybeWait (s : PState) (cc : ℤ) :
    projT (maybeWait s cc).1 = projT s := by
  simp only [maybeWait]
  split
  all_goals rfl

/-- The DMAoff body only writes controller and hardware slots. -/
theorem projT_dmaOffBody (s : PState) (cc : ℤ) (xb1 : ℕ) :
    projT (dmaOffBody s cc xb1).1 = projT s := by
  simp only [dmaOffBody]
  repeat' split
  all_goals rfl

/-- The Cont body only writes the controller. -/
theorem projT_macroContBody (k : Const) (s : PState) (cc : ℤ) (xb1 xw1 : ℕ) :
    projT (macroContBody k s cc xb1 xw1).1 = projT s := rfl

/-- The Loop body only writes the controller. -/
theorem projT_macroLoopBody (s : PState) (cc : ℤ) (xb1 xw1 : ℕ) :
    projT (macroLoopBody s cc xb1 xw1).1 = projT s := by
  simp only [macroLoopBody]
  repeat' split
  all_goals rfl

/-- The note bodies only write the controller. -/
theorem projT_macroNoteBody (k : Const) (s : PState) (cc base : ℤ) (xb1 xb3 : ℕ) :
    projT (macroNoteBody k s cc base xb1 xb3).1 = projT s := by
  simp only [macroNoteBody]
  rw [projT_maybeWait]
  rfl

/-- No dispatched macro instruction touches the projection: every opcode of
the RunMacro switch writes only controller, hardware, cue and IMS state. -/
theorem projT_macroCase (k : Const) (s : PState) (cc : ℤ) (a lz : ℕ) :
    projT (macroCase k s cc a lz).1 = projT s := by
  simp only [macroCase]
  repeat' split
  all_goals simp only [projT_dmaOffBody, projT_macroContBody, projT_macroLoopBody,
    projT_macroNoteBody, projT_maybeWait, projT_notePort, projT_setC, projT_setH,
    projT_setCue]

/-- The RunMacro fetch-decode-execute loop leaves the projection unchanged
for every fuel bound. -/
theorem projT_runMacroGo (k : Const) (cc : ℤ) :
    ∀ fuel s, projT (runMacroGo k cc fuel s) = projT s
  | 0, _ => rfl
  | fuel + 1, s => by
    simp only [runMacroGo]
    split
    next s₂ heq =>
      have h := congrArg (fun t => projT t.1) heq
      simp only [projT_macroCase, projT_setC] at h
      exact h.symm
    next s₂ heq =>
      rw [projT_runMacroGo k cc fuel s₂]
      have h := congrArg (fun t => projT t.1) heq
      simp only [projT_macroCase, projT_setC] at h
      exact h.symm

/-- RunMacro leaves the projection unchanged. -/
theorem projT_runMacro (k : Const) (cc : ℤ) (s : PState) :
    projT (runMacro k cc s) = projT s := by
  simp only [runMacro]
  rw [projT_runMacroGo]
  rfl

/-- The AddBegin block leaves the projection unchanged. -/
theorem projT_effAddBegin (cc : ℤ) (s : PState) :
    projT (effAddBegin cc s) = projT s := by
  simp only [effAddBegin]
  repeat' split
  all_goals rfl

/-- The vibrato block leaves the projection unchanged. -/
theorem projT_effVibrato (cc : ℤ) (s : PState) :
    projT (effVibrato cc s) = projT s := by
  simp only [effVibrato]
  repeat' split
  all_goals rfl

/-- The portamento block leaves the projection unchanged. -/
theorem projT_effPorta (cc : ℤ) (s : PState) :
    projT (effPorta cc s) = projT s := by
  simp only [effPorta]
  repeat' split
  all_goals rfl

/-- The envelope block leaves the projection unchanged. -/
theorem projT_effEnvelope (cc : ℤ) (s : PState) :
    projT (effEnvelope cc s) = projT s := by
  simp only [effEnvelope]
  repeat' split
  all_goals rfl

/-- The master-fade block writes only MasterVol, FadeTime and FadeSlope,
none of which belong to the projection. -/
theorem projT_effMasterFade (s : PState) :
    projT (effMasterFade s) = projT s := by
  simp only [effMasterFade]
  repeat' split
  all_goals rfl

/-- The whole DoEffects pass leaves the projection unchanged. -/
theorem projT_doEffects (k : Const) (cc : ℤ) (s : PState) :
    projT (doEffects k cc s) = projT s := by
  simp only [doEffects]
  split
  · rfl
  split
  · rfl
  rw [projT_effMasterFade, projT_effEnvelope, projT_effPorta, projT_effVibrato]
  split
  · rw [projT_doIms, projT_effAddBegin]
  · rw [projT_effAddBegin]

/-- DoMacro leaves the projection unchanged. -/
theorem projT_doMacro (k : Const) (cc : ℤ) (s : PState) :
    projT (doMacro k cc s) = projT s := by
  simp only [doMacro]
  repeat' split
  all_goals simp only [projT_setH, projT_doEffects, projT_runMacro, projT_notePort,
    projT_setC]

/-- DoAllMacros leaves the projection unchanged: the whole macro/effects
phase writes only controller, hardware, cue, IMS and fade state. -/
theorem projT_doAllMacros (k : Const) (s : PState) :
    projT (doAllMacros k s) = projT s := by
  simp only [doAllMacros]
  split
  all_goals simp only [projT_doMacro]

/-- A state agreeing with `a` is `a` with possibly different controller,
hardware, cue and IMS state and fade dynamics. -/
theorem agree_cases {a b : PState} (h : projT a = projT b) :
    b = { a with cdb := b.cdb, hdb := b.hdb, cue := b.cue, ims := b.ims,
                 mdb := { a.mdb with MasterVol := b.mdb.MasterVol,
                                     FadeTime := b.mdb.FadeTime,
                                     FadeSlope := b.mdb.FadeSlope } } := by
  obtain ⟨ma, pa, ca, ha2, cua, ia, mma, ea, ja, la⟩ := a
  obtain ⟨mb, pb, cb, hb2, cub, ib, mmb, eb, jb, lb⟩ := b
  obtain ⟨m1, m2, m3, m4, m5, m6, m7, m8, m9, m10, m11, m12, m13, m14, m15, m16, m17, m18⟩ := ma
  obtain ⟨n1, n2, n3, n4, n5, n6, n7, n8, n9, n10, n11, n12, n13, n14, n15, n16, n17, n18⟩ := mb
  simp only [projT, mdbT, Prod.mk.injEq] at h
  obtain ⟨h1, h2, h3, h4, h5, h6, h7, h8, h9, h10, h11, h12, h13, h14,
    h15, h16, h17, h18, h19, h20⟩ := h
  subst_vars
  rfl

/-- The non-fade master fields after DoFade: FadeDest and FadeReset take
the arguments, everything else (of the projection) is preserved, in both
branches — the MasterVol-dependent branching only affects the excluded
fade dynamics. -/
theorem mdbT_doFade (sp dv : ℤ) (m : Mdb) :
    mdbT (doFade sp dv m) =
      (m.PlayerEnable, m.EndFlag, m.CurrSong, m.SpeedCnt, m.CIASave, m.SongCont,
       m.SongNum, m.PlayPattFlag, dv, sp, m.TrackLoop, m.DMAon, m.DMAoff,
       m.DMAstate, m.DMAAllow) := by
  simp only [doFade]
  split
  all_goals rfl

/-- DoFade maps agreeing states to agreeing states. -/
theorem projT_eq_doFadeSt {a b : PState} (h : projT a = projT b) (sp dv : ℤ) :
    projT (doFadeSt a sp dv) = projT (doFadeSt b sp dv) := by
  rw [agree_cases h]
  simp only [doFadeSt, projT, mdbT_doFade]

/-- One trackstep row assignment maps agreeing states to agreeing states. -/
theorem projT_eq_loadTrackRow (k : Const) {a b : PState} (h : projT a = projT b)
    (i : ℕ) (w : ℤ) :
    projT (loadTrackRow k a i w) = projT (loadTrackRow k b i w) := by
  rw [agree_cases h]
  simp only [loadTrackRow]
  split_ifs
  all_goals rfl

/-- Loading a full trackstep line maps agreeing states to agreeing states. -/
theorem projT_eq_loadTrackRowsGo (k : Const) (base : ℤ) :
    ∀ n i {a b : PState}, projT a = projT b →
      projT (loadTrackRowsGo k base n i a) = projT (loadTrackRowsGo k base n i b)
  | 0, _, _, _, h => h
  | n + 1, i, a, b, h => by
    simp only [loadTrackRowsGo]
    exact projT_eq_loadTrackRowsGo k base n (i + 1)
      (projT_eq_loadTrackRow k h i (readTrackstepWord k (base + i)))

/-- GetTrackStep maps agreeing states to agreeing states: every branch
reads and writes only projection fields (plus DoFade, covered above). -/
theorem projT_eq_getTrackStep (k : Const) :
    ∀ fuel {a b : PState}, projT a = projT b →
      projT (getTrackStep k fuel a) = projT (getTrackStep k fuel b)
  | 0, _, _, h => h
  | fuel + 1, a, b, h => by
    obtain ⟨ma, pa, ca, ha2, cua, ia, mma, ea, ja, la⟩ := a
    obtain ⟨mb, pb, cb, hb2, cub, ib, mmb, eb, jb, lb⟩ := b
    obtain ⟨m1, m2, m3, m4, m5, m6, m7, m8, m9, m10, m11, m12, m13, m14, m15, m16, m17, m18⟩ := ma
    obtain ⟨n1, n2, n3, n4, n5, n6, n7, n8, n9, n10, n11, n12, n13, n14, n15, n16, n17, n18⟩ := mb
    simp only [projT, mdbT, Prod.mk.injEq] at h
    obtain ⟨h1, h2, h3, h4, h5, h6, h7, h8, h9, h10, h11, h12, h13, h14,
      h15, h16, h17, h18, h19, h20⟩ := h
    subst_vars
    simp only [getTrackStep]
    by_cases g1 : pb.CurrPos = pb.FirstPos ∧ lb < 0
    · simp only [if_pos g1]
      rfl
    simp only [if_neg g1]
    by_cases g2 : readTrackstepWord k (pb.CurrPos * 8) = 0xEFFE
    case neg =>
      simp only [if_neg g2]
      exact projT_eq_loadTrackRowsGo k _ 8 0 rfl
    simp only [if_pos g2]
    by_cases g3 : readTrackstepWord k (pb.CurrPos * 8 + 1) = 0
    · simp only [if_pos g3]
      rfl
    simp only [if_neg g3]
    by_cases g4 : readTrackstepWord k (pb.CurrPos * 8 + 1) = 1
    case pos =>
      simp only [if_pos g4]
      by_cases g5 : lb ≠ 0
      case pos =>
        by_cases g6 : lb - 1 = 0
        case pos =>
          simp only [if_pos g5, if_pos g6,
            if_pos (show (true : Bool) = true from rfl)]
          rfl
        case neg =>
          simp only [if_pos g5, if_neg g6, if_neg Bool.false_ne_true]
          by_cases g7 : n14 = 0
          case pos =>
            simp only [if_pos g7]
            exact projT_eq_getTrackStep k fuel rfl
          case neg =>
            simp only [if_neg g7]
            by_cases g8 : n14 - 1 < 0
            case pos =>
              simp only [if_pos g8]
              exact projT_eq_getTrackStep k fuel rfl
            case neg =>
              simp only [if_neg g8]
              exact projT_eq_getTrackStep k fuel rfl
      case neg =>
        simp only [if_neg g5, if_neg Bool.false_ne_true]
        by_cases g7 : n14 = 0
        case pos =>
          simp only [if_pos g7]
          exact projT_eq_getTrackStep k fuel rfl
        case neg =>
          simp only [if_neg g7]
          by_cases g8 : n14 - 1 < 0
          case pos =>
            simp only [if_pos g8]
            exact projT_eq_getTrackStep k fuel rfl
          case neg =>
            simp only [if_neg g8]
            exact projT_eq_getTrackStep k fuel rfl
    case neg =>
      simp only [if_neg g4]
      by_cases g9 : readTrackstepWord k (pb.CurrPos * 8 + 1) = 2
      case pos =>
        simp only [if_pos g9]
        by_cases g10 : jsAnd (readTrackstepWord k (pb.CurrPos * 8 + 3)) 0xF200 = 0 ∧
            jsAnd (readTrackstepWord k (pb.CurrPos * 8 + 3)) 0x1FF > 0xF
        case pos =>
          simp only [if_pos g10]
          exact projT_eq_getTrackStep k fuel rfl
        case neg =>
          simp only [if_neg g10]
          exact projT_eq_getTrackStep k fuel rfl
      case neg =>
        simp only [if_neg g9]
        by_cases g11 : readTrackstepWord k (pb.CurrPos * 8 + 1) = 3
        case pos =>
          simp only [if_pos g11]
          by_cases g12 : jsAnd (readTrackstepWord k (pb.CurrPos * 8 + 3)) 0x8000 = 0
          case pos =>
            simp only [if_pos g12]
            exact projT_eq_getTrackStep k fuel rfl
          case neg =>
            simp only [if_neg g12]
            exact projT_eq_getTrackStep k fuel rfl
        case neg =>
          simp only [if_neg g11]
          by_cases g13 : readTrackstepWord k (pb.CurrPos * 8 + 1) = 4
          case pos =>
            simp only [if_pos g13]
            exact projT_eq_getTrackStep k fuel
              (by simp only [doFadeSt, projT, mdbT_doFade])
          case neg =>
            simp only [if_neg g13]
            exact projT_eq_getTrackStep k fuel rfl


/-- The DoTrack instruction loop: on agreeing states, muted and unmuted
runs produce agreeing states and the same return value — the muting gate
only suppresses NotePort dispatches, which never touch the projection. -/
theorem projT_eq_doTrackLoop (k : Const) (m₁ m₂ : Bool) (x : ℕ) :
    ∀ fuel {a b : PState}, projT a = projT b →
      projTR (doTrackLoop k m₁ x fuel a) = projTR (doTrackLoop k m₂ x fuel b)
  | 0, a, b, h => by simp only [doTrackLoop, projTR, h]
  | fuel + 1, a, b, h => by
    obtain ⟨ma, pa, ca, ha2, cua, ia, mma, ea, ja, la⟩ := a
    obtain ⟨mb, pb, cb, hb2, cub, ib, mmb, eb, jb, lb⟩ := b
    obtain ⟨m1, m2, m3, m4, m5, m6, m7, m8, m9, m10, m11, m12, m13, m14, m15, m16, m17, m18⟩ := ma
    obtain ⟨n1, n2, n3, n4, n5, n6, n7, n8, n9, n10, n11, n12, n13, n14, n15, n16, n17, n18⟩ := mb
    simp only [projT, mdbT, Prod.mk.injEq] at h
    obtain ⟨h1, h2, h3, h4, h5, h6, h7, h8, h9, h10, h11, h12, h13, h14,
      h15, h16, h17, h18, h19, h20⟩ := h
    subst_vars
    simp only [doTrackLoop, getP, setP, setCue]
    by_cases gA : b0 (toU32 (readEditbuf k
        ((pb.p.getD x Pdb.init).PAddr + (pb.p.getD x Pdb.init).PStep))) < 0xF0
    case pos =>
      simp only [if_pos gA]
      by_cases gB : b0 (toU32 (readEditbuf k
          ((pb.p.getD x Pdb.init).PAddr + (pb.p.getD x Pdb.init).PStep))) / 64 = 2
      case pos =>
        simp only [if_pos gB]
        cases m₁ <;> cases m₂ <;>
          simp only [if_neg (show ¬¬((true : Bool) = true) by decide),
            if_pos (show ¬((false : Bool) = true) by decide)] <;>
          exact congrArg (fun z => (z, (0 : ℤ)))
            (by first | rfl | (simp only [projT_notePort]; rfl))
      case neg =>
        simp only [if_neg gB]
        cases m₁ <;> cases m₂ <;>
          simp only [if_neg (show ¬¬((true : Bool) = true) by decide),
            if_pos (show ¬((false : Bool) = true) by decide)] <;>
          exact projT_eq_doTrackLoop k _ _ x fuel
            (by first | rfl | (simp only [projT_notePort]; rfl))
    case neg =>
      simp only [if_neg gA]
      generalize hsc : b0 (toU32 (readEditbuf k
          ((pb.p.getD x Pdb.init).PAddr + (pb.p.getD x Pdb.init).PStep))) % 16 = sc
      have hbnd : sc < 16 := hsc ▸ Nat.mod_lt _ (by norm_num)
      interval_cases sc
      all_goals simp only []
      all_goals repeat' split
      all_goals first
        | contradiction
        | rfl
        | exact congrArg (fun z => (z, (1 : ℤ))) (projT_eq_getTrackStep k k.fuel rfl)
        | exact projT_eq_doTrackLoop k _ _ x fuel rfl
        | exact projT_eq_doTrackLoop k _ _ x fuel
            (by first | rfl | (simp only [projT_notePort]; rfl))
        | exact projT_eq_doTrackLoop k _ _ x fuel
            (by simp only [doFadeSt, projT, mdbT_doFade])

/-- DoTrack with its entry gates: on agreeing states, muted and unmuted
runs produce agreeing states and the same return value. -/
theorem projT_eq_doTrackAt (k : Const) (mu₁ mu₂ : List Bool) (x : ℕ) {a b : PState}
    (h : projT a = projT b) :
    projTR (doTrackAt k mu₁ x a) = projTR (doTrackAt k mu₂ x b) := by
  obtain ⟨ma, pa, ca, ha2, cua, ia, mma, ea, ja, la⟩ := a
  obtain ⟨mb, pb, cb, hb2, cub, ib, mmb, eb, jb, lb⟩ := b
  obtain ⟨m1, m2, m3, m4, m5, m6, m7, m8, m9, m10, m11, m12, m13, m14, m15, m16, m17, m18⟩ := ma
  obtain ⟨n1, n2, n3, n4, n5, n6, n7, n8, n9, n10, n11, n12, n13, n14, n15, n16, n17, n18⟩ := mb
  simp only [projT, mdbT, Prod.mk.injEq] at h
  obtain ⟨h1, h2, h3, h4, h5, h6, h7, h8, h9, h10, h11, h12, h13, h14,
    h15, h16, h17, h18, h19, h20⟩ := h
  subst_vars
  simp only [doTrackAt, getP, setP]
  by_cases g1 : (pb.p.getD x Pdb.init).PNum = 0xFE
  case pos =>
    simp only [if_pos g1]
    cases hm1 : mu₁.getD x false <;> cases hm2 : mu₂.getD x false <;>
      simp only [hm1, hm2, if_neg (show ¬¬((true : Bool) = true) by decide),
        if_pos (show ¬((false : Bool) = true) by decide)] <;>
      exact congrArg (fun z => (z, (0 : ℤ)))
        (by first | rfl | (simp only [projT_channelOff]; rfl))
  case neg =>
    simp only [if_neg g1]
    by_cases g2 : (pb.p.getD x Pdb.init).PAddr = 0 ∧ (pb.p.getD x Pdb.init).PNum ≠ 0
    case pos =>
      simp only [if_pos g2]
      rfl
    case neg =>
      simp only [if_neg g2]
      by_cases g3 : (pb.p.getD x Pdb.init).PNum ≥ 0x90
      case pos =>
        simp only [if_pos g3]
        rfl
      case neg =>
        simp only [if_neg g3]
        by_cases g4 : (pb.p.getD x Pdb.init).PWait ≠ 0
        case pos =>
          simp only [if_pos g4]
          rfl
        case neg =>
          simp only [if_neg g4]
          exact projT_eq_doTrackLoop k _ _ x k.fuel rfl

/-- One scan over the eight tracks: agreeing states yield agreeing states
and the same early-stop flag. -/
theorem projT_eq_trackPassGo (k : Const) (mu₁ mu₂ : List Bool) :
    ∀ n x {a b : PState}, projT a = projT b →
      projTB (trackPassGo k mu₁ n x a) = projTB (trackPassGo k mu₂ n x b)
  | 0, x, a, b, h => by simp only [trackPassGo, projTB, h]
  | n + 1, x, a, b, h => by
    simp only [trackPassGo]
    have hr := projT_eq_doTrackAt k mu₁ mu₂ x h
    have hr2 := congrArg Prod.snd hr
    have hr1 := congrArg Prod.fst hr
    have h2 : (doTrackAt k mu₁ x a).2 = (doTrackAt k mu₂ x b).2 := hr2
    have h1 : projT (doTrackAt k mu₁ x a).1 = projT (doTrackAt k mu₂ x b).1 := hr1
    rw [h2]
    by_cases g : (doTrackAt k mu₂ x b).2 = 1
    · simp only [if_pos g, projTB, h1]
    · simp only [if_neg g]
      exact projT_eq_trackPassGo k mu₁ mu₂ n (x + 1) h1

/-- The DoTracks restart loop preserves agreement. -/
theorem projT_eq_doTracksGo (k : Const) (mu₁ mu₂ : List Bool) :
    ∀ rf {a b : PState}, projT a = projT b →
      projT (doTracksGo k mu₁ rf a) = projT (doTracksGo k mu₂ rf b)
  | 0, _, _, h => h
  | rf + 1, a, b, h => by
    simp only [doTracksGo]
    have hr := projT_eq_trackPassGo k mu₁ mu₂ 8 0 h
    have hr2 := congrArg Prod.snd hr
    have hr1 := congrArg Prod.fst hr
    have h2 : (trackPassGo k mu₁ 8 0 a).2 = (trackPassGo k mu₂ 8 0 b).2 := hr2
    have h1 : projT (trackPassGo k mu₁ 8 0 a).1 = projT (trackPassGo k mu₂ 8 0 b).1 := hr1
    rw [h2]
    by_cases g : (trackPassGo k mu₂ 8 0 b).2 = true
    · simp only [if_pos g]
      exact projT_eq_doTracksGo k mu₁ mu₂ rf h1
    · simp only [if_neg g]
      exact h1

/-- DoTracks (speed prescaler plus track scan) preserves agreement. -/
theorem projT_eq_doTracks (k : Const) (mu₁ mu₂ : List Bool) {a b : PState}
    (h : projT a = projT b) :
    projT (doTracks k mu₁ a) = projT (doTracks k mu₂ b) := by
  obtain ⟨ma, pa, ca, ha2, cua, ia, mma, ea, ja, la⟩ := a
  obtain ⟨mb, pb, cb, hb2, cub, ib, mmb, eb, jb, lb⟩ := b
  obtain ⟨m1, m2, m3, m4, m5, m6, m7, m8, m9, m10, m11, m12, m13, m14, m15, m16, m17, m18⟩ := ma
  obtain ⟨n1, n2, n3, n4, n5, n6, n7, n8, n9, n10, n11, n12, n13, n14, n15, n16, n17, n18⟩ := mb
  simp only [projT, mdbT, Prod.mk.injEq] at h
  obtain ⟨h1, h2, h3, h4, h5, h6, h7, h8, h9, h10, h11, h12, h13, h14,
    h15, h16, h17, h18, h19, h20⟩ := h
  subst_vars
  simp only [doTracks]
  by_cases g : n4 = 0
  · simp only [if_pos g]
    exact projT_eq_doTracksGo k mu₁ mu₂ k.fuel rfl
  · simp only [if_neg g]
    rfl

/-- One tick preserves agreement: the macro phase never touches the
projection and the track phase preserves it. -/
theorem projT_eq_tick (k : Const) (mu₁ mu₂ : List Bool) {a b : PState}
    (h : projT a = projT b) :
    projT (tick k mu₁ a) = projT (tick k mu₂ b) := by
  obtain ⟨ma, pa, ca, ha2, cua, ia, mma, ea, ja, la⟩ := a
  obtain ⟨mb, pb, cb, hb2, cub, ib, mmb, eb, jb, lb⟩ := b
  obtain ⟨m1, m2, m3, m4, m5, m6, m7, m8, m9, m10, m11, m12, m13, m14, m15, m16, m17, m18⟩ := ma
  obtain ⟨n1, n2, n3, n4, n5, n6, n7, n8, n9, n10, n11, n12, n13, n14, n15, n16, n17, n18⟩ := mb
  simp only [projT, mdbT, Prod.mk.injEq] at h
  obtain ⟨h1, h2, h3, h4, h5, h6, h7, h8, h9, h10, h11, h12, h13, h14,
    h15, h16, h17, h18, h19, h20⟩ := h
  subst_vars
  simp only [tick]
  by_cases g : n1 = 0
  · simp only [if_pos g]
    rfl
  · simp only [if_neg g]
    have hCS₁ := Agree.currSong_eq
      (show Agree _ _ from projT_doAllMacros k
        (PState.mk (Mdb.mk n1 n2 n3 n4 n5 n6 n7 n8 m9 n10 m11 n12 m13 n14 n15 n16 n17 n18)
          pb ca ha2 cua ia mmb eb jb lb))
    have hCS₂ := Agree.currSong_eq
      (show Agree _ _ from projT_doAllMacros k
        (PState.mk (Mdb.mk n1 n2 n3 n4 n5 n6 n7 n8 n9 n10 n11 n12 n13 n14 n15 n16 n17 n18)
          pb cb hb2 cub ib mmb eb jb lb))
    simp only [hCS₁, hCS₂]
    by_cases g2 : 0 ≤ n3
    · simp only [if_pos g2]
      refine projT_eq_doTracks k mu₁ mu₂ ?_
      rw [projT_doAllMacros, projT_doAllMacros]
      rfl
    · simp only [if_neg g2]
      rw [projT_doAllMacros, projT_doAllMacros]
      rfl

/-- Iterated ticks preserve agreement. -/
theorem projT_eq_tickIter (k : Const) (mu₁ mu₂ : List Bool) :
    ∀ n {a b : PState}, projT a = projT b →
      projT (tickIter k mu₁ n a) = projT (tickIter k mu₂ n b)
  | 0, _, _, h => h
  | n + 1, a, b, h => by
    simp only [tickIter]
    exact projT_eq_tickIter k mu₁ mu₂ n (projT_eq_tick k mu₁ mu₂ h)

/-- C9 (amended): muting never changes the current_pos and speed_count
timeseries — for every module, every pair of mute vectors, every start
state and every number of ticks, both runs agree on current_pos and
speed_count (master_vol can differ, see the counterexample). -/
theorem c9_mute_neutrality (k : Const) (mu₁ mu₂ : List Bool) (s : PState) (n : ℕ) :
    (tickIter k mu₁ n s).pdb.CurrPos = (tickIter k mu₂ n s).pdb.CurrPos ∧
    (tickIter k mu₁ n s).mdb.SpeedCnt = (tickIter k mu₂ n s).mdb.SpeedCnt := by
  have h := projT_eq_tickIter k mu₁ mu₂ n (rfl : projT s = projT s)
  exact ⟨congrArg Pdblk.CurrPos (Agree.pdb_eq h), Agree.speedCnt_eq h⟩

/-- C9 counterexample: with an active master fade, muting track 0 changes
the master_vol timeseries: after two ticks the muted run reads 56 and the
unmuted run 57 (the dispatched note resets the controller effects gate,
which skips one fade step). -/
theorem c9_counterexample :
    (tickIter muteConst muteTrack0 2 muteState).mdb.MasterVol = 56 ∧
    (tickIter muteConst noMute 2 muteState).mdb.MasterVol = 57 ∧
    ((56 : ℤ) ≠ 57) :=
  ⟨by decide, by decide, by decide⟩

end TFMX
